import Mathlib

/-!
Verification development for the InnoDB redo-log core
(`storage/innobase/log/log0log.cc`).

The C++ source is shallowly embedded as pure Lean functions over an
explicit `LogSys` state record.  Machine integers (`lsn_t`, `ulint`) are
modelled as `Nat`; the source never relies on wrap-around in the modelled
paths except where noted (one archive-margin subtraction, modelled with an
explicit `% 2 ^ 64`).  The byte-level block codec (`log_block_init`,
`log_block_set_data_len`, ... from `log0log.ic`) and the numeric layout
constants from `log0log.h` are not part of the given source file; they are
modelled from the spec's data-model section as a record of block-header
fields next to a byte map.  File I/O is external: writes of checkpoint
blocks to the log-file header are modelled as updates of an explicit
`cp_disk` map plus an I/O trace, and data-file writes (whose contents no
claim inspects) are not recorded.  Concurrency is modelled sequentially:
each public operation is one atomic state transformer, and the wait-on-a
-pending-flush suspension inside `log_write_up_to` is a stutter step.
-/

/-- Size of a log block in bytes (`OS_FILE_LOG_BLOCK_SIZE`, modelled from
the spec: fixed block size 512). -/
def OS_FILE_LOG_BLOCK_SIZE : Nat := 512

/-- Size of a log block header (`LOG_BLOCK_HDR_SIZE`, modelled from the
spec: header 12 bytes). -/
def LOG_BLOCK_HDR_SIZE : Nat := 12

/-- Size of a log block trailer (`LOG_BLOCK_TRL_SIZE`, modelled from the
spec: 4-byte checksum trailer). -/
def LOG_BLOCK_TRL_SIZE : Nat := 4

/-- Size of a log file header (`LOG_FILE_HDR_SIZE`, modelled from the
spec: the header region holding metadata, backup label and the two
checkpoint slots; four blocks). -/
def LOG_FILE_HDR_SIZE : Nat := 4 * OS_FILE_LOG_BLOCK_SIZE

/-- First lsn assigned by `log_init` (`LOG_START_LSN`: one block worth of
lsn away from zero times 16, `16 * OS_FILE_LOG_BLOCK_SIZE`). -/
def LOG_START_LSN : Nat := 16 * OS_FILE_LOG_BLOCK_SIZE

/-- Offset of the first checkpoint slot in a log file header
(`LOG_CHECKPOINT_1`, modelled from the spec: a dedicated one-block slot
inside the first page). -/
def LOG_CHECKPOINT_1 : Nat := OS_FILE_LOG_BLOCK_SIZE

/-- Offset of the second checkpoint slot in a log file header
(`LOG_CHECKPOINT_2`, modelled from the spec: a second dedicated one-block
slot inside the first page). -/
def LOG_CHECKPOINT_2 : Nat := 3 * OS_FILE_LOG_BLOCK_SIZE

/-- Size of an `MLOG_CHECKPOINT` marker record
(`SIZE_OF_MLOG_CHECKPOINT`, modelled from the spec: a one-byte-type log
record carrying an 8-byte lsn). -/
def SIZE_OF_MLOG_CHECKPOINT : Nat := 9

/-- Compile-time page size (`UNIV_PAGE_SIZE`, default build value). -/
def UNIV_PAGE_SIZE : Nat := 16384

/-- Largest lsn value (`LSN_MAX`, modelled from the spec: lsn is a 64-bit
integer, so this is `2 ^ 64 - 1`). -/
def LSN_MAX : Nat := 2 ^ 64 - 1

/-- Margin for free space in the log buffer before a log entry is
catenated (`LOG_BUF_WRITE_MARGIN`). -/
def LOG_BUF_WRITE_MARGIN : Nat := 4 * OS_FILE_LOG_BLOCK_SIZE

/-- Margin for free space in the log buffer after a log entry is
catenated (`LOG_BUF_FLUSH_MARGIN`). -/
def LOG_BUF_FLUSH_MARGIN : Nat := LOG_BUF_WRITE_MARGIN + 4 * UNIV_PAGE_SIZE

/-- Free space reserved in the smallest log group per OS thread
(`LOG_CHECKPOINT_FREE_PER_THREAD`). -/
def LOG_CHECKPOINT_FREE_PER_THREAD : Nat := 4 * UNIV_PAGE_SIZE

/-- Extra free space reserved in the smallest log group
(`LOG_CHECKPOINT_EXTRA_FREE`). -/
def LOG_CHECKPOINT_EXTRA_FREE : Nat := 8 * UNIV_PAGE_SIZE

/-- Extra margin used in archiving (`LOG_ARCHIVE_EXTRA_MARGIN`). -/
def LOG_ARCHIVE_EXTRA_MARGIN : Nat := 4 * UNIV_PAGE_SIZE

/-- Header fields of one log block in the log buffer (modelled from the
spec: sequence number with flush flag, data length, first-record-group
offset, checkpoint number; the byte-level codec of `log0log.ic` is not in
the given source). -/
structure LogBlock where
  hdr_no : Nat
  flush : Bool
  data_len : Nat
  first_rec_group : Nat
  checkpoint_no : Nat
deriving DecidableEq

/-- Fields of a log group (`log_group_t`) used by the embedded
operations: file count, file size, and the lsn/offset correspondence
pair maintained by `log_group_set_fields`. -/
structure LogGroup where
  n_files : Nat
  file_size : Nat
  lsn : Nat
  lsn_offset : Nat
deriving DecidableEq

/-- Fields of a checkpoint block written by `log_group_checkpoint`
(checksums are over raw bytes via the external `ut_fold_binary` and are
not modelled; no claim inspects them). -/
structure CheckpointBlock where
  checkpoint_no : Nat
  checkpoint_lsn : Nat
  lsn_offset : Nat
  log_buf_size : Nat
  archived_lsn : Nat
deriving DecidableEq

/-- The result fields computed by `log_calc_max_ages`. -/
structure LogMaxAges where
  log_group_capacity : Nat
  max_modified_age_async : Nat
  max_modified_age_sync : Nat
  max_checkpoint_age_async : Nat
  max_checkpoint_age : Nat
  max_archived_lsn_age : Nat
  max_archived_lsn_age_async : Nat
deriving DecidableEq

/-- The `srv_unix_file_flush_method` configuration values that
`log_write_up_to` and `log_checkpoint` branch on. -/
inductive FlushMethod where
  | fsync
  | o_dsync
  | littlesync
  | nosync
  | o_direct
  | o_direct_no_fsync
  | all_o_direct
deriving DecidableEq

/-- The global log system state (`log_t`), with the log buffer split into
a payload byte map `data` and a block-header map `blocks` (indexed by
buffer offset divided by the block size), plus the on-disk checkpoint
slots of the (single, see `log_write_checkpoint_info`) log group and the
trace of checkpoint-slot writes issued to `fil_io`. -/
structure LogSys where
  lsn : Nat
  buf_size : Nat
  max_buf_free : Nat
  data : Nat → Nat
  blocks : Nat → LogBlock
  buf_free : Nat
  buf_next_to_write : Nat
  write_lsn : Nat
  write_end_offset : Nat
  flushed_to_disk_lsn : Nat
  current_flush_lsn : Nat
  n_pending_flushes : Nat
  flush_event_set : Bool
  last_checkpoint_lsn : Nat
  next_checkpoint_lsn : Nat
  next_checkpoint_no : Nat
  n_pending_checkpoint_writes : Nat
  check_flush_or_checkpoint : Bool
  log_group_capacity : Nat
  max_modified_age_async : Nat
  max_modified_age_sync : Nat
  max_checkpoint_age_async : Nat
  max_checkpoint_age : Nat
  track_changed_pages : Bool
  tracked_lsn : Nat
  has_printed_chkp_warning : Bool
  group : LogGroup
  cp_disk : Nat → Option CheckpointBlock
  cp_slot_trace : List Nat

/-- Point update of a block-header map at one block index. -/
def updateBlock (m : Nat → LogBlock) (i : Nat) (f : LogBlock → LogBlock) :
    Nat → LogBlock :=
  fun j => if j = i then f (m i) else m j

/-- Semantics of `ut_memcpy(buf + off, str, str.length)` on the payload
byte map. -/
def writeBytes (d : Nat → Nat) (off : Nat) (bs : List Nat) : Nat → Nat :=
  fun o => if off ≤ o ∧ o < off + bs.length then bs.getD (o - off) 0 else d o

/-- Semantics of `memset(buf + off, 0, len)` on the payload byte map. -/
def memsetZero (d : Nat → Nat) (off len : Nat) : Nat → Nat :=
  fun o => if off ≤ o ∧ o < off + len then 0 else d o

/-- Semantics of `ut_memmove(buf, buf + start, len)` on the payload byte
map: the range `[start, start + len)` is copied down to offset 0, the
rest is untouched. -/
def moveDown (d : Nat → Nat) (start len : Nat) : Nat → Nat :=
  fun o => if o < len then d (o + start) else d o

/-- The same move on the block-header map, in whole blocks. -/
def moveBlocksDown (m : Nat → LogBlock) (startIdx count : Nat) :
    Nat → LogBlock :=
  fun i => if i < count then m (i + startIdx) else m i

/-- `ut_calc_align_down(n, m)`: round `n` down to a multiple of `m` (the
source uses a bit mask over a power-of-two alignment, which equals the
division form for `m > 0`). -/
def ut_calc_align_down (n m : Nat) : Nat := n / m * m

/-- `ut_calc_align(n, m)`: round `n` up to a multiple of `m`. -/
def ut_calc_align (n m : Nat) : Nat := (n + m - 1) / m * m

/-- `log_block_init(block, lsn)` (modelled from the spec: the block
sequence number is `1 + (lsn / block_size) mod 2^31`, data length starts
at the header size, no first record group yet). -/
def log_block_init_block (lsn : Nat) : LogBlock :=
  { hdr_no := 1 + lsn / OS_FILE_LOG_BLOCK_SIZE % 2 ^ 31
    flush := false
    data_len := LOG_BLOCK_HDR_SIZE
    first_rec_group := 0
    checkpoint_no := 0 }

/-- Length of the part of the string consumed by one `part_loop`
iteration of `log_write_low`, for current in-block offset `p` and
remaining string length `n`. -/
def lwl_len (p n : Nat) : Nat :=
  if p + n ≤ OS_FILE_LOG_BLOCK_SIZE - LOG_BLOCK_TRL_SIZE then n
  else OS_FILE_LOG_BLOCK_SIZE - LOG_BLOCK_TRL_SIZE - p

/-- One `part_loop` iteration of `log_write_low`: copy the part that fits
the current block, set the block data length, and on a filled block stamp
the checkpoint number, account the header and trailer into the lsn and
initialize the next block. -/
def log_write_low_iter (log : LogSys) (str : List Nat) : LogSys :=
  let p := log.buf_free % OS_FILE_LOG_BLOCK_SIZE
  let data_len :=
    if p + str.length ≤ OS_FILE_LOG_BLOCK_SIZE - LOG_BLOCK_TRL_SIZE
    then p + str.length else OS_FILE_LOG_BLOCK_SIZE - LOG_BLOCK_TRL_SIZE
  let len := lwl_len p str.length
  let sA := { log with data := writeBytes log.data log.buf_free (str.take len) }
  let bidx := log.buf_free / OS_FILE_LOG_BLOCK_SIZE
  let sB := { sA with blocks := updateBlock sA.blocks bidx (fun b => { b with data_len := data_len }) }
  if data_len = OS_FILE_LOG_BLOCK_SIZE - LOG_BLOCK_TRL_SIZE then
    let sC := { sB with blocks := updateBlock sB.blocks bidx (fun b => { b with data_len := OS_FILE_LOG_BLOCK_SIZE }) }
    let sD := { sC with blocks := updateBlock sC.blocks bidx (fun b => { b with checkpoint_no := log.next_checkpoint_no }) }
    let len2 := len + LOG_BLOCK_HDR_SIZE + LOG_BLOCK_TRL_SIZE
    let sE := { sD with lsn := sD.lsn + len2 }
    let sF := { sE with blocks := updateBlock sE.blocks (bidx + 1) (fun _ => log_block_init_block sE.lsn) }
    { sF with buf_free := sF.buf_free + len2 }
  else
    let sE := { sB with lsn := sB.lsn + len }
    { sE with buf_free := sE.buf_free + len }

/-- Remaining string after one `part_loop` iteration. -/
def lwl_rest (log : LogSys) (str : List Nat) : List Nat :=
  str.drop (lwl_len (log.buf_free % OS_FILE_LOG_BLOCK_SIZE) str.length)

/-- The `part_loop` of `log_write_low`, with an explicit iteration bound:
every iteration either consumes part of the string or (only when the
start offset sits inside the block trailer region) makes a single
zero-length step that finishes the block, so `2 * str.length + 2`
iterations always suffice (see `log_write_low_go_eq_of_fuel`). -/
def log_write_low_go (fuel : Nat) (log : LogSys) (str : List Nat) : LogSys :=
  match fuel with
  | 0 => log
  | fuel + 1 =>
    if (lwl_rest log str).length = 0 then log_write_low_iter log str
    else log_write_low_go fuel (log_write_low_iter log str) (lwl_rest log str)

/-- `log_write_low(str, str_len)`: append the string to the log buffer,
iterating `part_loop` until the string is exhausted. -/
def log_write_low (log : LogSys) (str : List Nat) : LogSys :=
  log_write_low_go (2 * str.length + 2) log str

/-- `log_group_get_capacity(group)`: data capacity of a log group
excluding file headers. -/
def log_group_get_capacity (group : LogGroup) : Nat :=
  (group.file_size - LOG_FILE_HDR_SIZE) * group.n_files

/-- `log_group_calc_size_offset(offset, group)`: strip the file headers
below a real offset within the log group. -/
def log_group_calc_size_offset (offset : Nat) (group : LogGroup) : Nat :=
  offset - LOG_FILE_HDR_SIZE * (1 + offset / group.file_size)

/-- `log_group_calc_real_offset(offset, group)`: add the file headers
back onto a size offset within the log group. -/
def log_group_calc_real_offset (offset : Nat) (group : LogGroup) : Nat :=
  offset + LOG_FILE_HDR_SIZE * (1 + offset / (group.file_size - LOG_FILE_HDR_SIZE))

/-- `log_group_calc_lsn_offset(lsn, group)`: real offset of an lsn
within a log group, via the group's reference pair `(lsn, lsn_offset)`. -/
def log_group_calc_lsn_offset (lsn : Nat) (group : LogGroup) : Nat :=
  let gr_lsn := group.lsn
  let gr_lsn_size_offset := log_group_calc_size_offset group.lsn_offset group
  let group_size := log_group_get_capacity group
  let difference :=
    if gr_lsn ≤ lsn then lsn - gr_lsn
    else group_size - (gr_lsn - lsn) % group_size
  let offset := (gr_lsn_size_offset + difference) % group_size
  log_group_calc_real_offset offset group

/-- `log_group_set_fields(group, lsn)`. -/
def log_group_set_fields (group : LogGroup) (lsn : Nat) : LogGroup :=
  { group with lsn_offset := log_group_calc_lsn_offset lsn group, lsn := lsn }

/-- `log_close()`: set the first-record-group of the unfinished block if
unset, flag a needed flush or checkpoint under the margin conditions,
stop page tracking when its margin is exceeded, and update the
checkpoint-age warning bookkeeping.  The buffer pool's oldest dirty
modification lsn is the external input `pool_oldest` (0 when the pool is
clean); the rate limiting of the warning by wall-clock time only gates
printing and is not part of the state.  Returns the lsn as the source
does. -/
def log_close (log : LogSys) (pool_oldest : Nat) : Nat × LogSys :=
  let lsn := log.lsn
  let bidx := log.buf_free / OS_FILE_LOG_BLOCK_SIZE
  let s1 :=
    if (log.blocks bidx).first_rec_group = 0 then
      { log with blocks := updateBlock log.blocks bidx (fun b => { b with first_rec_group := b.data_len }) }
    else log
  let s2 :=
    if s1.max_buf_free < s1.buf_free then { s1 with check_flush_or_checkpoint := true } else s1
  let s3 :=
    if s2.track_changed_pages ∧ s2.log_group_capacity ≤ lsn - s2.tracked_lsn
    then { s2 with track_changed_pages := false } else s2
  let checkpoint_age := lsn - s3.last_checkpoint_lsn
  let s4 :=
    if s3.log_group_capacity ≤ checkpoint_age
    then { s3 with has_printed_chkp_warning := true } else s3
  if checkpoint_age ≤ s4.max_modified_age_sync then (lsn, s4)
  else
    let oldest_lsn := pool_oldest
    let s5 :=
      if oldest_lsn = 0 ∨ s4.max_modified_age_sync < lsn - oldest_lsn ∨
          s4.max_checkpoint_age_async < checkpoint_age
      then { s4 with check_flush_or_checkpoint := true } else s4
    (lsn, s5)

/-- `log_sys_write_completion()`: publish `write_lsn`, advance the flush
cursor to `write_end_offset`, and compact the ring by moving the block
range from `align_down(write_end_offset)` to `align_up(buf_free)` to the
buffer start when the written prefix exceeds half of `max_buf_free`. -/
def log_sys_write_completion (s : LogSys) : LogSys :=
  let s1 := { s with write_lsn := s.lsn, buf_next_to_write := s.write_end_offset }
  if s.max_buf_free / 2 < s.write_end_offset then
    let move_start := ut_calc_align_down s.write_end_offset OS_FILE_LOG_BLOCK_SIZE
    let move_end := ut_calc_align s.buf_free OS_FILE_LOG_BLOCK_SIZE
    let s2 := { s1 with data := moveDown s1.data move_start (move_end - move_start), blocks := moveBlocksDown s1.blocks (move_start / OS_FILE_LOG_BLOCK_SIZE) ((move_end - move_start) / OS_FILE_LOG_BLOCK_SIZE) }
    { s2 with buf_free := s2.buf_free - move_start, buf_next_to_write := s2.buf_next_to_write - move_start }
  else s1

/-- The straight-line tail of `log_write_up_to` once all its early
returns have been passed: mark a starting flush, stamp the flush bit and
checkpoint number on the first and last blocks of the write area, pad up
to the write-ahead boundary, emit the area (`log_group_write_buf`, whose
data-file write and block checksum stamping by the external byte codec
leave no modelled state behind), update the group fields, complete the
write, and finish a requested flush. -/
def log_write_up_to_do_write (s : LogSys) (flush_to_disk : Bool)
    (method : FlushMethod) (write_ahead_size : Nat) : LogSys :=
  let s1 :=
    if flush_to_disk then { s with n_pending_flushes := s.n_pending_flushes + 1, current_flush_lsn := s.lsn, flush_event_set := false }
    else s
  let area_start := ut_calc_align_down s1.buf_next_to_write OS_FILE_LOG_BLOCK_SIZE
  let area_end := ut_calc_align s1.buf_free OS_FILE_LOG_BLOCK_SIZE
  let s2 := { s1 with blocks := updateBlock s1.blocks (area_start / OS_FILE_LOG_BLOCK_SIZE) (fun b => { b with flush := true }) }
  let s3 := { s2 with blocks := updateBlock s2.blocks ((area_end - OS_FILE_LOG_BLOCK_SIZE) / OS_FILE_LOG_BLOCK_SIZE) (fun b => { b with checkpoint_no := s2.next_checkpoint_no }) }
  let pad_size :=
    if OS_FILE_LOG_BLOCK_SIZE < write_ahead_size then
      let end_offset := log_group_calc_lsn_offset (ut_calc_align s3.lsn OS_FILE_LOG_BLOCK_SIZE) s3.group
      let end_offset_in_unit := end_offset % write_ahead_size
      if 0 < end_offset_in_unit ∧ end_offset_in_unit < area_end - area_start then
        if s3.buf_size < area_end + (write_ahead_size - end_offset_in_unit)
        then s3.buf_size - area_end
        else write_ahead_size - end_offset_in_unit
      else 0
    else 0
  let s4 := { s3 with data := memsetZero s3.data area_end pad_size }
  let s5 := { s4 with write_end_offset := s4.buf_free }
  let s6 := { s5 with group := log_group_set_fields s5.group s5.write_lsn }
  let s7 := log_sys_write_completion s6
  let s8 :=
    if method = FlushMethod.o_dsync ∨ method = FlushMethod.all_o_direct
    then { s7 with flushed_to_disk_lsn := s7.write_lsn } else s7
  if flush_to_disk = false then s8
  else
    let s9 :=
      if method ≠ FlushMethod.o_dsync
      then { s8 with flushed_to_disk_lsn := s8.current_flush_lsn } else s8
    { s9 with n_pending_flushes := s9.n_pending_flushes - 1, flush_event_set := true }

/-- `log_write_up_to(lsn, flush_to_disk)`: ensure the log is written (and
optionally flushed) up to the given lsn.  `method` is
`srv_unix_file_flush_method` and `write_ahead_size` is
`srv_log_write_ahead_size`.  The wait on a concurrent flush is a stutter
step in this sequential model (the sequential machine never has a flush
in progress at entry). -/
def log_write_up_to (s : LogSys) (lsn : Nat) (flush_to_disk : Bool)
    (method : FlushMethod) (write_ahead_size : Nat) : LogSys :=
  if flush_to_disk = false ∧ lsn ≤ s.write_lsn then s
  else
    let limit_lsn := if flush_to_disk then s.flushed_to_disk_lsn else s.write_lsn
    if lsn ≤ limit_lsn then s
    else if flush_to_disk = true ∧ (0 < s.n_pending_flushes ∨ s.flush_event_set = false) then s
    else if flush_to_disk = false ∧ s.buf_free = s.buf_next_to_write then s
    else log_write_up_to_do_write s flush_to_disk method write_ahead_size

/-- `log_complete_checkpoint()`. -/
def log_complete_checkpoint (s : LogSys) : LogSys :=
  { s with next_checkpoint_no := s.next_checkpoint_no + 1, last_checkpoint_lsn := s.next_checkpoint_lsn }

/-- `log_io_complete_checkpoint()`: decrement the pending counter and
complete the checkpoint when it reaches zero. -/
def log_io_complete_checkpoint (s : LogSys) : LogSys :=
  let s1 := { s with n_pending_checkpoint_writes := s.n_pending_checkpoint_writes - 1 }
  if s1.n_pending_checkpoint_writes = 0 then log_complete_checkpoint s1 else s1

/-- `log_group_checkpoint(group)`: build the checkpoint block for the
group and emit it, via `fil_io`, into checkpoint slot `LOG_CHECKPOINT_2`
when `next_checkpoint_no` is odd and `LOG_CHECKPOINT_1` when it is even;
count the pending write.  The slot write is recorded in the modelled
header region `cp_disk` and in the I/O trace. -/
def log_group_checkpoint (s : LogSys) : LogSys :=
  let buf : CheckpointBlock :=
    { checkpoint_no := s.next_checkpoint_no
      checkpoint_lsn := s.next_checkpoint_lsn
      lsn_offset := log_group_calc_lsn_offset s.next_checkpoint_lsn s.group
      log_buf_size := s.buf_size
      archived_lsn := LSN_MAX }
  let slot := if s.next_checkpoint_no % 2 = 1 then LOG_CHECKPOINT_2 else LOG_CHECKPOINT_1
  { s with n_pending_checkpoint_writes := s.n_pending_checkpoint_writes + 1, cp_disk := fun o => if o = slot then some buf else s.cp_disk o, cp_slot_trace := s.cp_slot_trace ++ [slot] }

/-- `log_write_checkpoint_info(sync)` followed by the asynchronous
`fil_io` completion (`log_io_complete_checkpoint`), which the sequential
model performs immediately after the write is issued.  The group list of
this model holds a single group. -/
def log_write_checkpoint_info (s : LogSys) (_sync : Bool) : LogSys :=
  log_io_complete_checkpoint (log_group_checkpoint s)

/-- `log_checkpoint(sync, write_always)`.  External inputs:
`pool_oldest` is `buf_pool_get_oldest_modification()` (0 when clean) and
`nameRecs` are the bytes of the `MLOG_FILE_NAME`/`MLOG_CHECKPOINT`
records that `fil_names_clear` appends to the redo log (empty when it
returns false).  The tablespace `fil_flush_file_spaces` call touches no
modelled state. -/
def log_checkpoint (s : LogSys) (sync write_always : Bool)
    (pool_oldest : Nat) (nameRecs : List Nat)
    (method : FlushMethod) (write_ahead_size : Nat) : Bool × LogSys :=
  let oldest_lsn := if pool_oldest = 0 then s.lsn else pool_oldest
  if write_always = false ∧ oldest_lsn = s.last_checkpoint_lsn + SIZE_OF_MLOG_CHECKPOINT then
    (true, s)
  else
    let s1 := if nameRecs.length = 0 then s else (log_close (log_write_low s nameRecs) pool_oldest).2
    let flush_lsn := if nameRecs.length = 0 then oldest_lsn else s1.lsn
    let s2 := log_write_up_to s1 flush_lsn true method write_ahead_size
    if write_always = false ∧ oldest_lsn ≤ s2.last_checkpoint_lsn then (true, s2)
    else if 0 < s2.n_pending_checkpoint_writes then (false, s2)
    else
      let s3 := { s2 with next_checkpoint_lsn := oldest_lsn }
      (true, log_write_checkpoint_info s3 sync)

/-- `log_calc_max_ages()`: compute the age thresholds from the group
capacities and `srv_thread_concurrency`; `none` is the source's `false`
return (log group too small).  The unsigned wrap of the archive margin is
modelled with an explicit `% 2 ^ 64`. -/
def log_calc_max_ages (groups : List LogGroup) (srv_thread_concurrency : Nat) :
    Option LogMaxAges :=
  let smallest_capacity0 :=
    groups.foldl (fun m g => min m (log_group_get_capacity g)) LSN_MAX
  let smallest_archive_margin :=
    groups.foldl (fun m g => min m ((log_group_get_capacity g + 2 ^ 64 - (g.file_size - LOG_FILE_HDR_SIZE) - LOG_ARCHIVE_EXTRA_MARGIN) % 2 ^ 64)) LSN_MAX
  let smallest_capacity := smallest_capacity0 - smallest_capacity0 / 10
  let free := LOG_CHECKPOINT_FREE_PER_THREAD * (10 + srv_thread_concurrency) + LOG_CHECKPOINT_EXTRA_FREE
  if smallest_capacity / 2 ≤ free then none
  else
    let margin0 := smallest_capacity - free
    let margin := margin0 - margin0 / 10
    some
      { log_group_capacity := smallest_capacity
        max_modified_age_async := margin - margin / 8
        max_modified_age_sync := margin - margin / 16
        max_checkpoint_age_async := margin - margin / 32
        max_checkpoint_age := margin
        max_archived_lsn_age := smallest_archive_margin
        max_archived_lsn_age_async := smallest_archive_margin - smallest_archive_margin / 16 }

/-- Group record built by `log_group_init`. -/
def logGroupInit (n_files file_size : Nat) : LogGroup :=
  { n_files := n_files, file_size := file_size, lsn := LOG_START_LSN, lsn_offset := LOG_FILE_HDR_SIZE }

/-- State after `log_init()` followed by `log_group_init(...)` for one
group: the first block is initialized at `LOG_START_LSN` with its first
record group at the header size, the lsn moves past that header, and the
age thresholds are those computed by `log_calc_max_ages` (meaningful when
it succeeds; see `LogReachable.init`).  All remaining fields are the
`ut_zalloc_nokey` zero state. -/
def log_sys_init_state (bufSize : Nat) (track : Bool)
    (n_files file_size threads : Nat) : LogSys :=
  let g := logGroupInit n_files file_size
  let A := (log_calc_max_ages [g] threads).getD ⟨0, 0, 0, 0, 0, 0, 0⟩
  { lsn := LOG_START_LSN + LOG_BLOCK_HDR_SIZE
    buf_size := bufSize
    max_buf_free := bufSize / 2 - LOG_BUF_FLUSH_MARGIN
    data := fun _ => 0
    blocks := updateBlock (fun _ => { hdr_no := 0, flush := false, data_len := 0, first_rec_group := 0, checkpoint_no := 0 }) 0 (fun _ => { log_block_init_block LOG_START_LSN with first_rec_group := LOG_BLOCK_HDR_SIZE })
    buf_free := LOG_BLOCK_HDR_SIZE
    buf_next_to_write := 0
    write_lsn := LOG_START_LSN
    write_end_offset := 0
    flushed_to_disk_lsn := 0
    current_flush_lsn := 0
    n_pending_flushes := 0
    flush_event_set := true
    last_checkpoint_lsn := LOG_START_LSN
    next_checkpoint_lsn := 0
    next_checkpoint_no := 0
    n_pending_checkpoint_writes := 0
    check_flush_or_checkpoint := true
    log_group_capacity := A.log_group_capacity
    max_modified_age_async := A.max_modified_age_async
    max_modified_age_sync := A.max_modified_age_sync
    max_checkpoint_age_async := A.max_checkpoint_age_async
    max_checkpoint_age := A.max_checkpoint_age
    track_changed_pages := track
    tracked_lsn := 0
    has_printed_chkp_warning := false
    group := g
    cp_disk := fun _ => none
    cp_slot_trace := [] }

/-- Reachable states of the sequential log-system machine: the state
after a successful `log_init`/`log_group_init`, closed under the embedded
operations with arbitrary inputs from producers, the buffer pool and the
configuration. -/
inductive LogReachable : LogSys → Prop where
  | init (bufSize : Nat) (track : Bool) (n_files file_size threads : Nat)
      (h : (log_calc_max_ages [logGroupInit n_files file_size] threads).isSome = true) :
      LogReachable (log_sys_init_state bufSize track n_files file_size threads)
  | write_low (s : LogSys) (str : List Nat) :
      LogReachable s → LogReachable (log_write_low s str)
  | close (s : LogSys) (pool_oldest : Nat) :
      LogReachable s → LogReachable (log_close s pool_oldest).2
  | write_up_to (s : LogSys) (lsn : Nat) (flush_to_disk : Bool)
      (method : FlushMethod) (write_ahead_size : Nat) :
      LogReachable s → LogReachable (log_write_up_to s lsn flush_to_disk method write_ahead_size)
  | checkpoint (s : LogSys) (sync write_always : Bool) (pool_oldest : Nat)
      (nameRecs : List Nat) (method : FlushMethod) (write_ahead_size : Nat) :
      LogReachable s → LogReachable (log_checkpoint s sync write_always pool_oldest nameRecs method write_ahead_size).2

/-- Modelled from the spec: the threshold derivation of section 4.5 taken
at its word, for comparison with `log_calc_max_ages`.  With `C` the
smallest group capacity and the given reserve, it fails when
`reserve ≥ C/2` and otherwise returns
`(M, M·31/32, M·15/16, M·7/8)` for `M = (C − reserve) · 0.9`, i.e. the
claimed `max_checkpoint_age`, `max_checkpoint_age_async`,
`max_modified_age_sync` and `max_modified_age_async`. -/
def log_calc_max_ages_spec (C reserve : Nat) : Option (Nat × Nat × Nat × Nat) :=
  if C / 2 ≤ reserve then none
  else
    let M := (C - reserve) * 9 / 10
    some (M, M * 31 / 32, M * 15 / 16, M * 7 / 8)

/-- A started engine used by the concrete scenarios: 256 KiB log buffer,
page tracking off, one 10002048-byte log file (10^7 bytes of capacity)
and `srv_thread_concurrency = 0`. -/
def initDemo : LogSys := log_sys_init_state 262144 false 1 10002048 0

/-- One synchronous forced checkpoint (`sync`, `write_always`) against a
clean buffer pool, with the default `fsync` flush method and the default
8192-byte write-ahead size. -/
def demoCheckpoint (s : LogSys) : LogSys :=
  (log_checkpoint s true true 0 [] FlushMethod.fsync 8192).2

/-- Five successive checkpoints from a fresh init. -/
def c5_run : LogSys :=
  demoCheckpoint (demoCheckpoint (demoCheckpoint (demoCheckpoint (demoCheckpoint initDemo))))

/-- State after appending 100 bytes of `0x41` to a fresh log and closing
(the spec's append-within-block scenario). -/
def c4_run : LogSys := (log_close (log_write_low initDemo (List.replicate 100 65)) 0).2

/-- State with the append cursor `H + 480` bytes into its block: a fresh
log after appending 480 bytes. -/
def c8_start : LogSys := log_write_low initDemo (List.replicate 480 65)

/-- The append-crossing-block scenario: 100 more bytes, then close. -/
def c8_run : LogSys := (log_close (log_write_low c8_start (List.replicate 100 65)) 0).2

/-- A log system mid-write used to witness the compaction case of
`log_sys_write_completion`: the written prefix (1000 bytes) exceeds half
of `max_buf_free` (10). -/
def c7_state : LogSys :=
  { initDemo with max_buf_free := 10, write_end_offset := 1000, buf_free := 1100 }

theorem log_write_low_iter_frame (log : LogSys) (str : List Nat) :
    (log_write_low_iter log str).write_lsn = log.write_lsn ∧
    (log_write_low_iter log str).flushed_to_disk_lsn = log.flushed_to_disk_lsn ∧
    (log_write_low_iter log str).current_flush_lsn = log.current_flush_lsn ∧
    (log_write_low_iter log str).last_checkpoint_lsn = log.last_checkpoint_lsn ∧
    (log_write_low_iter log str).next_checkpoint_lsn = log.next_checkpoint_lsn ∧
    (log_write_low_iter log str).next_checkpoint_no = log.next_checkpoint_no ∧
    (log_write_low_iter log str).n_pending_checkpoint_writes = log.n_pending_checkpoint_writes ∧
    (log_write_low_iter log str).cp_disk = log.cp_disk ∧
    (log_write_low_iter log str).cp_slot_trace = log.cp_slot_trace ∧
    (log_write_low_iter log str).n_pending_flushes = log.n_pending_flushes ∧
    (log_write_low_iter log str).flush_event_set = log.flush_event_set ∧
    log.lsn ≤ (log_write_low_iter log str).lsn := by
  simp only [log_write_low_iter]
  split_ifs <;>
    exact ⟨rfl, rfl, rfl, rfl, rfl, rfl, rfl, rfl, rfl, rfl, rfl, Nat.le_add_right _ _⟩

theorem log_write_low_go_frame (fuel : Nat) :
    ∀ (log : LogSys) (str : List Nat),
    (log_write_low_go fuel log str).write_lsn = log.write_lsn ∧
    (log_write_low_go fuel log str).flushed_to_disk_lsn = log.flushed_to_disk_lsn ∧
    (log_write_low_go fuel log str).current_flush_lsn = log.current_flush_lsn ∧
    (log_write_low_go fuel log str).last_checkpoint_lsn = log.last_checkpoint_lsn ∧
    (log_write_low_go fuel log str).next_checkpoint_lsn = log.next_checkpoint_lsn ∧
    (log_write_low_go fuel log str).next_checkpoint_no = log.next_checkpoint_no ∧
    (log_write_low_go fuel log str).n_pending_checkpoint_writes = log.n_pending_checkpoint_writes ∧
    (log_write_low_go fuel log str).cp_disk = log.cp_disk ∧
    (log_write_low_go fuel log str).cp_slot_trace = log.cp_slot_trace ∧
    (log_write_low_go fuel log str).n_pending_flushes = log.n_pending_flushes ∧
    (log_write_low_go fuel log str).flush_event_set = log.flush_event_set ∧
    log.lsn ≤ (log_write_low_go fuel log str).lsn := by
  induction fuel with
  | zero =>
    intro log str
    exact ⟨rfl, rfl, rfl, rfl, rfl, rfl, rfl, rfl, rfl, rfl, rfl, Nat.le_refl _⟩
  | succ n ih =>
    intro log str
    simp only [log_write_low_go]
    split
    · exact log_write_low_iter_frame log str
    · obtain ⟨e1, e2, e3, e4, e5, e6, e7, e8, e9, e10, e11, hle⟩ :=
        log_write_low_iter_frame log str
      obtain ⟨f1, f2, f3, f4, f5, f6, f7, f8, f9, f10, f11, hle2⟩ :=
        ih (log_write_low_iter log str) (lwl_rest log str)
      exact ⟨f1.trans e1, f2.trans e2, f3.trans e3, f4.trans e4, f5.trans e5,
        f6.trans e6, f7.trans e7, f8.trans e8, f9.trans e9, f10.trans e10,
        f11.trans e11, hle.trans hle2⟩

theorem log_write_low_frame (log : LogSys) (str : List Nat) :
    (log_write_low log str).write_lsn = log.write_lsn ∧
    (log_write_low log str).flushed_to_disk_lsn = log.flushed_to_disk_lsn ∧
    (log_write_low log str).current_flush_lsn = log.current_flush_lsn ∧
    (log_write_low log str).last_checkpoint_lsn = log.last_checkpoint_lsn ∧
    (log_write_low log str).next_checkpoint_lsn = log.next_checkpoint_lsn ∧
    (log_write_low log str).next_checkpoint_no = log.next_checkpoint_no ∧
    (log_write_low log str).n_pending_checkpoint_writes = log.n_pending_checkpoint_writes ∧
    (log_write_low log str).cp_disk = log.cp_disk ∧
    (log_write_low log str).cp_slot_trace = log.cp_slot_trace ∧
    (log_write_low log str).n_pending_flushes = log.n_pending_flushes ∧
    (log_write_low log str).flush_event_set = log.flush_event_set ∧
    log.lsn ≤ (log_write_low log str).lsn :=
  log_write_low_go_frame (2 * str.length + 2) log str

theorem log_sys_write_completion_fields (s : LogSys) :
    (log_sys_write_completion s).write_lsn = s.lsn ∧
    (log_sys_write_completion s).lsn = s.lsn ∧
    (log_sys_write_completion s).flushed_to_disk_lsn = s.flushed_to_disk_lsn ∧
    (log_sys_write_completion s).current_flush_lsn = s.current_flush_lsn ∧
    (log_sys_write_completion s).n_pending_flushes = s.n_pending_flushes ∧
    (log_sys_write_completion s).flush_event_set = s.flush_event_set ∧
    (log_sys_write_completion s).last_checkpoint_lsn = s.last_checkpoint_lsn ∧
    (log_sys_write_completion s).next_checkpoint_lsn = s.next_checkpoint_lsn ∧
    (log_sys_write_completion s).next_checkpoint_no = s.next_checkpoint_no ∧
    (log_sys_write_completion s).n_pending_checkpoint_writes = s.n_pending_checkpoint_writes ∧
    (log_sys_write_completion s).cp_disk = s.cp_disk ∧
    (log_sys_write_completion s).cp_slot_trace = s.cp_slot_trace := by
  simp only [log_sys_write_completion]
  split <;> exact ⟨rfl, rfl, rfl, rfl, rfl, rfl, rfl, rfl, rfl, rfl, rfl, rfl⟩

theorem log_sys_write_completion_buf_eq (s : LogSys)
    (h : s.write_end_offset = s.buf_free) :
    (log_sys_write_completion s).buf_free =
      (log_sys_write_completion s).buf_next_to_write := by
  simp only [log_sys_write_completion]
  split <;> simp [h]

theorem log_write_up_to_do_write_buf_eq (s : LogSys) (flush_to_disk : Bool)
    (method : FlushMethod) (write_ahead_size : Nat) :
    (log_write_up_to_do_write s flush_to_disk method write_ahead_size).buf_free =
      (log_write_up_to_do_write s flush_to_disk method write_ahead_size).buf_next_to_write := by
  simp only [log_write_up_to_do_write]
  split_ifs <;> exact log_sys_write_completion_buf_eq _ rfl

theorem log_write_up_to_noop (s : LogSys) (lsn : Nat) (flush_to_disk : Bool)
    (method : FlushMethod) (write_ahead_size : Nat)
    (h : lsn ≤ (if flush_to_disk then s.flushed_to_disk_lsn else s.write_lsn)) :
    log_write_up_to s lsn flush_to_disk method write_ahead_size = s := by
  cases flush_to_disk <;> simp_all [log_write_up_to]

theorem log_write_up_to_nothing (s : LogSys) (lsn : Nat)
    (method : FlushMethod) (write_ahead_size : Nat)
    (h : s.buf_free = s.buf_next_to_write) :
    log_write_up_to s lsn false method write_ahead_size = s := by
  simp [log_write_up_to, h]

theorem log_write_up_to_nonflush_write (s : LogSys) (lsn : Nat)
    (method : FlushMethod) (write_ahead_size : Nat)
    (hL : ¬ lsn ≤ s.write_lsn) (hb : s.buf_free ≠ s.buf_next_to_write) :
    log_write_up_to s lsn false method write_ahead_size =
      log_write_up_to_do_write s false method write_ahead_size := by
  simp [log_write_up_to, hL, hb]

theorem log_write_up_to_idem (s : LogSys) (lsn : Nat)
    (method method' : FlushMethod) (write_ahead_size write_ahead_size' : Nat) :
    log_write_up_to (log_write_up_to s lsn false method write_ahead_size) lsn
      false method' write_ahead_size' =
    log_write_up_to s lsn false method write_ahead_size := by
  by_cases hL : lsn ≤ s.write_lsn
  · rw [log_write_up_to_noop s lsn false method write_ahead_size (by simpa using hL)]
    exact log_write_up_to_noop s lsn false method' write_ahead_size' (by simpa using hL)
  · by_cases hb : s.buf_free = s.buf_next_to_write
    · rw [log_write_up_to_nothing s lsn method write_ahead_size hb]
      exact log_write_up_to_nothing s lsn method' write_ahead_size' hb
    · rw [log_write_up_to_nonflush_write s lsn method write_ahead_size hL hb]
      exact log_write_up_to_nothing _ lsn method' write_ahead_size'
        (log_write_up_to_do_write_buf_eq s false method write_ahead_size)

theorem log_write_up_to_do_write_fields (s : LogSys) (flush_to_disk : Bool)
    (method : FlushMethod) (write_ahead_size : Nat) :
    (log_write_up_to_do_write s flush_to_disk method write_ahead_size).lsn = s.lsn ∧
    (log_write_up_to_do_write s flush_to_disk method write_ahead_size).write_lsn = s.lsn ∧
    (log_write_up_to_do_write s flush_to_disk method write_ahead_size).last_checkpoint_lsn = s.last_checkpoint_lsn ∧
    (log_write_up_to_do_write s flush_to_disk method write_ahead_size).next_checkpoint_lsn = s.next_checkpoint_lsn ∧
    (log_write_up_to_do_write s flush_to_disk method write_ahead_size).next_checkpoint_no = s.next_checkpoint_no ∧
    (log_write_up_to_do_write s flush_to_disk method write_ahead_size).n_pending_checkpoint_writes = s.n_pending_checkpoint_writes ∧
    (log_write_up_to_do_write s flush_to_disk method write_ahead_size).cp_disk = s.cp_disk ∧
    (log_write_up_to_do_write s flush_to_disk method write_ahead_size).cp_slot_trace = s.cp_slot_trace := by
  cases flush_to_disk <;>
    simp only [log_write_up_to_do_write, log_sys_write_completion, reduceIte,
      apply_ite LogSys.lsn, apply_ite LogSys.write_lsn,
      apply_ite LogSys.last_checkpoint_lsn, apply_ite LogSys.next_checkpoint_lsn,
      apply_ite LogSys.next_checkpoint_no,
      apply_ite LogSys.n_pending_checkpoint_writes,
      apply_ite LogSys.cp_disk, apply_ite LogSys.cp_slot_trace, ite_self,
      and_self]

theorem log_write_up_to_do_write_P1 (s : LogSys) (flush_to_disk : Bool)
    (method : FlushMethod) (write_ahead_size : Nat)
    (h1 : s.flushed_to_disk_lsn ≤ s.write_lsn) (h2 : s.write_lsn ≤ s.lsn) :
    (log_write_up_to_do_write s flush_to_disk method write_ahead_size).flushed_to_disk_lsn ≤
      (log_write_up_to_do_write s flush_to_disk method write_ahead_size).write_lsn ∧
    (log_write_up_to_do_write s flush_to_disk method write_ahead_size).write_lsn ≤
      (log_write_up_to_do_write s flush_to_disk method write_ahead_size).lsn := by
  cases flush_to_disk <;>
    (refine ⟨?_, ?_⟩ <;>
      (simp only [log_write_up_to_do_write, log_sys_write_completion, reduceIte,
         apply_ite LogSys.flushed_to_disk_lsn, apply_ite LogSys.write_lsn,
         apply_ite LogSys.current_flush_lsn, apply_ite LogSys.lsn, ite_self]
       first | omega | (split_ifs <;> omega)))

theorem log_write_up_to_cp_frame (s : LogSys) (lsn : Nat) (flush_to_disk : Bool)
    (method : FlushMethod) (write_ahead_size : Nat) :
    (log_write_up_to s lsn flush_to_disk method write_ahead_size).last_checkpoint_lsn = s.last_checkpoint_lsn ∧
    (log_write_up_to s lsn flush_to_disk method write_ahead_size).next_checkpoint_lsn = s.next_checkpoint_lsn ∧
    (log_write_up_to s lsn flush_to_disk method write_ahead_size).next_checkpoint_no = s.next_checkpoint_no ∧
    (log_write_up_to s lsn flush_to_disk method write_ahead_size).n_pending_checkpoint_writes = s.n_pending_checkpoint_writes ∧
    (log_write_up_to s lsn flush_to_disk method write_ahead_size).cp_disk = s.cp_disk ∧
    (log_write_up_to s lsn flush_to_disk method write_ahead_size).cp_slot_trace = s.cp_slot_trace := by
  simp only [log_write_up_to]
  split_ifs <;>
    first
      | exact ⟨rfl, rfl, rfl, rfl, rfl, rfl⟩
      | exact (log_write_up_to_do_write_fields s flush_to_disk method write_ahead_size).2.2

theorem log_write_up_to_P1 (s : LogSys) (lsn : Nat) (flush_to_disk : Bool)
    (method : FlushMethod) (write_ahead_size : Nat)
    (h1 : s.flushed_to_disk_lsn ≤ s.write_lsn) (h2 : s.write_lsn ≤ s.lsn) :
    (log_write_up_to s lsn flush_to_disk method write_ahead_size).flushed_to_disk_lsn ≤
      (log_write_up_to s lsn flush_to_disk method write_ahead_size).write_lsn ∧
    (log_write_up_to s lsn flush_to_disk method write_ahead_size).write_lsn ≤
      (log_write_up_to s lsn flush_to_disk method write_ahead_size).lsn := by
  simp only [log_write_up_to]
  split_ifs <;>
    first
      | exact ⟨h1, h2⟩
      | exact log_write_up_to_do_write_P1 s flush_to_disk method write_ahead_size h1 h2

theorem log_close_frame (s : LogSys) (pool_oldest : Nat) :
    (log_close s pool_oldest).1 = s.lsn ∧
    (log_close s pool_oldest).2.lsn = s.lsn ∧
    (log_close s pool_oldest).2.buf_size = s.buf_size ∧
    (log_close s pool_oldest).2.max_buf_free = s.max_buf_free ∧
    (log_close s pool_oldest).2.data = s.data ∧
    (log_close s pool_oldest).2.buf_free = s.buf_free ∧
    (log_close s pool_oldest).2.buf_next_to_write = s.buf_next_to_write ∧
    (log_close s pool_oldest).2.write_lsn = s.write_lsn ∧
    (log_close s pool_oldest).2.write_end_offset = s.write_end_offset ∧
    (log_close s pool_oldest).2.flushed_to_disk_lsn = s.flushed_to_disk_lsn ∧
    (log_close s pool_oldest).2.current_flush_lsn = s.current_flush_lsn ∧
    (log_close s pool_oldest).2.n_pending_flushes = s.n_pending_flushes ∧
    (log_close s pool_oldest).2.flush_event_set = s.flush_event_set ∧
    (log_close s pool_oldest).2.last_checkpoint_lsn = s.last_checkpoint_lsn ∧
    (log_close s pool_oldest).2.next_checkpoint_lsn = s.next_checkpoint_lsn ∧
    (log_close s pool_oldest).2.next_checkpoint_no = s.next_checkpoint_no ∧
    (log_close s pool_oldest).2.n_pending_checkpoint_writes = s.n_pending_checkpoint_writes ∧
    (log_close s pool_oldest).2.log_group_capacity = s.log_group_capacity ∧
    (log_close s pool_oldest).2.max_modified_age_async = s.max_modified_age_async ∧
    (log_close s pool_oldest).2.max_modified_age_sync = s.max_modified_age_sync ∧
    (log_close s pool_oldest).2.max_checkpoint_age_async = s.max_checkpoint_age_async ∧
    (log_close s pool_oldest).2.max_checkpoint_age = s.max_checkpoint_age ∧
    (log_close s pool_oldest).2.tracked_lsn = s.tracked_lsn ∧
    (log_close s pool_oldest).2.group = s.group ∧
    (log_close s pool_oldest).2.cp_disk = s.cp_disk ∧
    (log_close s pool_oldest).2.cp_slot_trace = s.cp_slot_trace := by
  simp only [log_close, apply_ite Prod.fst, apply_ite Prod.snd,
    apply_ite LogSys.lsn, apply_ite LogSys.buf_size, apply_ite LogSys.max_buf_free,
    apply_ite LogSys.data, apply_ite LogSys.buf_free,
    apply_ite LogSys.buf_next_to_write, apply_ite LogSys.write_lsn,
    apply_ite LogSys.write_end_offset, apply_ite LogSys.flushed_to_disk_lsn,
    apply_ite LogSys.current_flush_lsn, apply_ite LogSys.n_pending_flushes,
    apply_ite LogSys.flush_event_set, apply_ite LogSys.last_checkpoint_lsn,
    apply_ite LogSys.next_checkpoint_lsn, apply_ite LogSys.next_checkpoint_no,
    apply_ite LogSys.n_pending_checkpoint_writes,
    apply_ite LogSys.log_group_capacity, apply_ite LogSys.max_modified_age_async,
    apply_ite LogSys.max_modified_age_sync,
    apply_ite LogSys.max_checkpoint_age_async, apply_ite LogSys.max_checkpoint_age,
    apply_ite LogSys.tracked_lsn, apply_ite LogSys.group,
    apply_ite LogSys.cp_disk, apply_ite LogSys.cp_slot_trace, ite_self, and_self]

theorem log_close_blocks (s : LogSys) (pool_oldest : Nat) (i : Nat) :
    (log_close s pool_oldest).2.blocks i =
      if i = s.buf_free / OS_FILE_LOG_BLOCK_SIZE ∧
          (s.blocks (s.buf_free / OS_FILE_LOG_BLOCK_SIZE)).first_rec_group = 0
      then { s.blocks i with first_rec_group := (s.blocks i).data_len }
      else s.blocks i := by
  simp only [log_close, apply_ite Prod.snd, apply_ite LogSys.blocks, ite_apply,
    ite_self, updateBlock]
  split_ifs <;> simp_all

theorem log_write_low_cp_frame (s : LogSys) (str : List Nat) :
    (log_write_low s str).last_checkpoint_lsn = s.last_checkpoint_lsn ∧
    (log_write_low s str).next_checkpoint_lsn = s.next_checkpoint_lsn ∧
    (log_write_low s str).next_checkpoint_no = s.next_checkpoint_no ∧
    (log_write_low s str).n_pending_checkpoint_writes = s.n_pending_checkpoint_writes ∧
    (log_write_low s str).cp_disk = s.cp_disk ∧
    (log_write_low s str).cp_slot_trace = s.cp_slot_trace := by
  obtain ⟨-, -, -, h4, h5, h6, h7, h8, h9, -, -, -⟩ := log_write_low_frame s str
  exact ⟨h4, h5, h6, h7, h8, h9⟩

theorem log_close_cp_frame (s : LogSys) (pool_oldest : Nat) :
    (log_close s pool_oldest).2.last_checkpoint_lsn = s.last_checkpoint_lsn ∧
    (log_close s pool_oldest).2.next_checkpoint_lsn = s.next_checkpoint_lsn ∧
    (log_close s pool_oldest).2.next_checkpoint_no = s.next_checkpoint_no ∧
    (log_close s pool_oldest).2.n_pending_checkpoint_writes = s.n_pending_checkpoint_writes ∧
    (log_close s pool_oldest).2.cp_disk = s.cp_disk ∧
    (log_close s pool_oldest).2.cp_slot_trace = s.cp_slot_trace := by
  obtain ⟨-, -, -, -, -, -, -, -, -, -, -, -, -, h14, h15, h16, h17, -, -, -, -,
    -, -, -, h25, h26⟩ := log_close_frame s pool_oldest
  exact ⟨h14, h15, h16, h17, h25, h26⟩

theorem log_write_low_P1 (s : LogSys) (str : List Nat)
    (h1 : s.flushed_to_disk_lsn ≤ s.write_lsn) (h2 : s.write_lsn ≤ s.lsn) :
    (log_write_low s str).flushed_to_disk_lsn ≤ (log_write_low s str).write_lsn ∧
    (log_write_low s str).write_lsn ≤ (log_write_low s str).lsn := by
  obtain ⟨e1, e2, -, -, -, -, -, -, -, -, -, hle⟩ := log_write_low_frame s str
  exact ⟨by rw [e1, e2]; exact h1, by rw [e1]; exact h2.trans hle⟩

theorem log_close_P1 (s : LogSys) (pool_oldest : Nat)
    (h1 : s.flushed_to_disk_lsn ≤ s.write_lsn) (h2 : s.write_lsn ≤ s.lsn) :
    (log_close s pool_oldest).2.flushed_to_disk_lsn ≤ (log_close s pool_oldest).2.write_lsn ∧
    (log_close s pool_oldest).2.write_lsn ≤ (log_close s pool_oldest).2.lsn := by
  obtain ⟨-, e2, -, -, -, -, -, e8, -, e10, -, -, -, -, -, -, -, -, -, -, -,
    -, -, -, -, -⟩ := log_close_frame s pool_oldest
  exact ⟨by rw [e8, e10]; exact h1, by rw [e8, e2]; exact h2⟩

theorem log_write_checkpoint_info_wf_frame (s : LogSys) (sync : Bool) :
    (log_write_checkpoint_info s sync).lsn = s.lsn ∧
    (log_write_checkpoint_info s sync).write_lsn = s.write_lsn ∧
    (log_write_checkpoint_info s sync).flushed_to_disk_lsn = s.flushed_to_disk_lsn := by
  simp only [log_write_checkpoint_info, log_io_complete_checkpoint,
    log_group_checkpoint, log_complete_checkpoint]
  split_ifs <;> exact ⟨rfl, rfl, rfl⟩

theorem log_write_checkpoint_info_P1 (s : LogSys) (sync : Bool)
    (h1 : s.flushed_to_disk_lsn ≤ s.write_lsn) (h2 : s.write_lsn ≤ s.lsn) :
    (log_write_checkpoint_info s sync).flushed_to_disk_lsn ≤
      (log_write_checkpoint_info s sync).write_lsn ∧
    (log_write_checkpoint_info s sync).write_lsn ≤
      (log_write_checkpoint_info s sync).lsn := by
  obtain ⟨e1, e2, e3⟩ := log_write_checkpoint_info_wf_frame s sync
  exact ⟨by rw [e2, e3]; exact h1, by rw [e1, e2]; exact h2⟩

theorem log_checkpoint_s1_P1 (s : LogSys) (pool_oldest : Nat) (nameRecs : List Nat)
    (h1 : s.flushed_to_disk_lsn ≤ s.write_lsn) (h2 : s.write_lsn ≤ s.lsn) :
    (if nameRecs.length = 0 then s else (log_close (log_write_low s nameRecs) pool_oldest).2).flushed_to_disk_lsn ≤
      (if nameRecs.length = 0 then s else (log_close (log_write_low s nameRecs) pool_oldest).2).write_lsn ∧
    (if nameRecs.length = 0 then s else (log_close (log_write_low s nameRecs) pool_oldest).2).write_lsn ≤
      (if nameRecs.length = 0 then s else (log_close (log_write_low s nameRecs) pool_oldest).2).lsn := by
  split_ifs with hn
  · exact ⟨h1, h2⟩
  · obtain ⟨p1, p2⟩ := log_write_low_P1 s nameRecs h1 h2
    exact log_close_P1 (log_write_low s nameRecs) pool_oldest p1 p2

section

attribute [local irreducible] log_write_up_to log_write_low log_close
  log_write_checkpoint_info

set_option maxHeartbeats 1000000 in
theorem log_checkpoint_P1 (s : LogSys) (sync wa : Bool) (pool_oldest : Nat)
    (nameRecs : List Nat) (method : FlushMethod) (write_ahead_size : Nat)
    (h1 : s.flushed_to_disk_lsn ≤ s.write_lsn) (h2 : s.write_lsn ≤ s.lsn) :
    (log_checkpoint s sync wa pool_oldest nameRecs method write_ahead_size).2.flushed_to_disk_lsn ≤
      (log_checkpoint s sync wa pool_oldest nameRecs method write_ahead_size).2.write_lsn ∧
    (log_checkpoint s sync wa pool_oldest nameRecs method write_ahead_size).2.write_lsn ≤
      (log_checkpoint s sync wa pool_oldest nameRecs method write_ahead_size).2.lsn := by
  have pw := log_write_low_P1 s nameRecs h1 h2
  have pc := log_close_P1 (log_write_low s nameRecs) pool_oldest pw.1 pw.2
  simp only [log_checkpoint]
  split_ifs <;>
    first
      | exact ⟨h1, h2⟩
      | exact log_write_up_to_P1 _ _ _ _ _ h1 h2
      | exact log_write_up_to_P1 _ _ _ _ _ pc.1 pc.2
      | exact log_write_checkpoint_info_P1 _ sync
          (log_write_up_to_P1 _ _ _ _ _ h1 h2).1
          (log_write_up_to_P1 _ _ _ _ _ h1 h2).2
      | exact log_write_checkpoint_info_P1 _ sync
          (log_write_up_to_P1 _ _ _ _ _ pc.1 pc.2).1
          (log_write_up_to_P1 _ _ _ _ _ pc.1 pc.2).2

theorem log_checkpoint_s1_cp_frame (s : LogSys) (pool_oldest : Nat) (nameRecs : List Nat) :
    (if nameRecs.length = 0 then s else (log_close (log_write_low s nameRecs) pool_oldest).2).last_checkpoint_lsn = s.last_checkpoint_lsn ∧
    (if nameRecs.length = 0 then s else (log_close (log_write_low s nameRecs) pool_oldest).2).next_checkpoint_lsn = s.next_checkpoint_lsn ∧
    (if nameRecs.length = 0 then s else (log_close (log_write_low s nameRecs) pool_oldest).2).next_checkpoint_no = s.next_checkpoint_no ∧
    (if nameRecs.length = 0 then s else (log_close (log_write_low s nameRecs) pool_oldest).2).n_pending_checkpoint_writes = s.n_pending_checkpoint_writes ∧
    (if nameRecs.length = 0 then s else (log_close (log_write_low s nameRecs) pool_oldest).2).cp_disk = s.cp_disk ∧
    (if nameRecs.length = 0 then s else (log_close (log_write_low s nameRecs) pool_oldest).2).cp_slot_trace = s.cp_slot_trace := by
  split_ifs with hn
  · exact ⟨rfl, rfl, rfl, rfl, rfl, rfl⟩
  · obtain ⟨a1, a2, a3, a4, a5, a6⟩ := log_write_low_cp_frame s nameRecs
    obtain ⟨b1, b2, b3, b4, b5, b6⟩ :=
      log_close_cp_frame (log_write_low s nameRecs) pool_oldest
    exact ⟨b1.trans a1, b2.trans a2, b3.trans a3, b4.trans a4, b5.trans a5,
      b6.trans a6⟩

theorem log_checkpoint_tail_spec (s0 s1 : LogSys) (sync wa : Bool)
    (oldest L : Nat) (m : FlushMethod) (w : Nat)
    (h1 : s1.last_checkpoint_lsn = s0.last_checkpoint_lsn)
    (h2 : s1.next_checkpoint_lsn = s0.next_checkpoint_lsn)
    (h3 : s1.next_checkpoint_no = s0.next_checkpoint_no)
    (h4 : s1.n_pending_checkpoint_writes = s0.n_pending_checkpoint_writes)
    (h5 : s1.cp_disk = s0.cp_disk)
    (h6 : s1.cp_slot_trace = s0.cp_slot_trace) :
    ((if wa = false ∧ oldest ≤ (log_write_up_to s1 L true m w).last_checkpoint_lsn
        then (true, log_write_up_to s1 L true m w)
        else if 0 < (log_write_up_to s1 L true m w).n_pending_checkpoint_writes
          then (false, log_write_up_to s1 L true m w)
          else (true, log_write_checkpoint_info { log_write_up_to s1 L true m w with next_checkpoint_lsn := oldest } sync)).1 = false ↔
      ¬(wa = false ∧ oldest ≤ s0.last_checkpoint_lsn) ∧
        0 < s0.n_pending_checkpoint_writes) ∧
    ((if wa = false ∧ oldest ≤ (log_write_up_to s1 L true m w).last_checkpoint_lsn
        then (true, log_write_up_to s1 L true m w)
        else if 0 < (log_write_up_to s1 L true m w).n_pending_checkpoint_writes
          then (false, log_write_up_to s1 L true m w)
          else (true, log_write_checkpoint_info { log_write_up_to s1 L true m w with next_checkpoint_lsn := oldest } sync)).1 = false →
      ((if wa = false ∧ oldest ≤ (log_write_up_to s1 L true m w).last_checkpoint_lsn
        then (true, log_write_up_to s1 L true m w)
        else if 0 < (log_write_up_to s1 L true m w).n_pending_checkpoint_writes
          then (false, log_write_up_to s1 L true m w)
          else (true, log_write_checkpoint_info { log_write_up_to s1 L true m w with next_checkpoint_lsn := oldest } sync)).2.last_checkpoint_lsn = s0.last_checkpoint_lsn ∧
      (if wa = false ∧ oldest ≤ (log_write_up_to s1 L true m w).last_checkpoint_lsn
        then (true, log_write_up_to s1 L true m w)
        else if 0 < (log_write_up_to s1 L true m w).n_pending_checkpoint_writes
          then (false, log_write_up_to s1 L true m w)
          else (true, log_write_checkpoint_info { log_write_up_to s1 L true m w with next_checkpoint_lsn := oldest } sync)).2.next_checkpoint_lsn = s0.next_checkpoint_lsn ∧
      (if wa = false ∧ oldest ≤ (log_write_up_to s1 L true m w).last_checkpoint_lsn
        then (true, log_write_up_to s1 L true m w)
        else if 0 < (log_write_up_to s1 L true m w).n_pending_checkpoint_writes
          then (false, log_write_up_to s1 L true m w)
          else (true, log_write_checkpoint_info { log_write_up_to s1 L true m w with next_checkpoint_lsn := oldest } sync)).2.next_checkpoint_no = s0.next_checkpoint_no ∧
      (if wa = false ∧ oldest ≤ (log_write_up_to s1 L true m w).last_checkpoint_lsn
        then (true, log_write_up_to s1 L true m w)
        else if 0 < (log_write_up_to s1 L true m w).n_pending_checkpoint_writes
          then (false, log_write_up_to s1 L true m w)
          else (true, log_write_checkpoint_info { log_write_up_to s1 L true m w with next_checkpoint_lsn := oldest } sync)).2.n_pending_checkpoint_writes = s0.n_pending_checkpoint_writes ∧
      (if wa = false ∧ oldest ≤ (log_write_up_to s1 L true m w).last_checkpoint_lsn
        then (true, log_write_up_to s1 L true m w)
        else if 0 < (log_write_up_to s1 L true m w).n_pending_checkpoint_writes
          then (false, log_write_up_to s1 L true m w)
          else (true, log_write_checkpoint_info { log_write_up_to s1 L true m w with next_checkpoint_lsn := oldest } sync)).2.cp_disk = s0.cp_disk ∧
      (if wa = false ∧ oldest ≤ (log_write_up_to s1 L true m w).last_checkpoint_lsn
        then (true, log_write_up_to s1 L true m w)
        else if 0 < (log_write_up_to s1 L true m w).n_pending_checkpoint_writes
          then (false, log_write_up_to s1 L true m w)
          else (true, log_write_checkpoint_info { log_write_up_to s1 L true m w with next_checkpoint_lsn := oldest } sync)).2.cp_slot_trace = s0.cp_slot_trace)) := by
  obtain ⟨e1, e2, e3, e4, e5, e6⟩ := log_write_up_to_cp_frame s1 L true m w
  have elast := e1.trans h1
  have enext := e2.trans h2
  have eno := e3.trans h3
  have epend := e4.trans h4
  have edisk := e5.trans h5
  have etrace := e6.trans h6
  split_ifs with hA hB
  · rw [elast] at hA
    constructor
    · constructor
      · intro hcon; exact absurd hcon (by simp)
      · rintro ⟨hna, -⟩; exact absurd hA hna
    · intro hcon; exact absurd hcon (by simp)
  · constructor
    · constructor
      · intro _
        rw [elast] at hA
        rw [epend] at hB
        exact ⟨hA, hB⟩
      · intro _; rfl
    · intro _
      exact ⟨elast, enext, eno, epend, edisk, etrace⟩
  · constructor
    · constructor
      · intro hcon; exact absurd hcon (by simp)
      · rintro ⟨-, hp⟩
        rw [epend] at hB
        exact absurd hp hB
    · intro hcon; exact absurd hcon (by simp)

end

/-- C1: in every reachable state of the log system,
`flushed_to_disk_lsn ≤ write_lsn ≤ lsn`; the inequality is established by
`log_init` and preserved by every operation, in particular by
`log_write_low` (which advances `lsn` only), by `log_sys_write_completion`
(which sets `write_lsn = lsn`), and by the flush completion in
`log_write_up_to` (which sets `flushed_to_disk_lsn` to `write_lsn` or to
`current_flush_lsn`, both `≤ write_lsn`). -/
theorem C1_reachable_lsn_order (s : LogSys) (h : LogReachable s) :
    s.flushed_to_disk_lsn ≤ s.write_lsn ∧ s.write_lsn ≤ s.lsn := by
  induction h with
  | init bufSize track n_files file_size threads hsome =>
    refine ⟨?_, ?_⟩ <;>
      simp [log_sys_init_state, LOG_START_LSN, LOG_BLOCK_HDR_SIZE,
        OS_FILE_LOG_BLOCK_SIZE]
  | write_low s str _ ih => exact log_write_low_P1 s str ih.1 ih.2
  | close s pool_oldest _ ih => exact log_close_P1 s pool_oldest ih.1 ih.2
  | write_up_to s lsn flush_to_disk method write_ahead_size _ ih =>
    exact log_write_up_to_P1 s lsn flush_to_disk method write_ahead_size ih.1 ih.2
  | checkpoint s sync write_always pool_oldest nameRecs method write_ahead_size _ ih =>
    exact log_checkpoint_P1 s sync write_always pool_oldest nameRecs method
      write_ahead_size ih.1 ih.2

/-- Witness for C1 at the concrete started engine of the demo scenarios. -/
theorem C1_reachable_lsn_order_witness :
    (log_sys_init_state 262144 false 1 10002048 0).flushed_to_disk_lsn ≤
      (log_sys_init_state 262144 false 1 10002048 0).write_lsn ∧
    (log_sys_init_state 262144 false 1 10002048 0).write_lsn ≤
      (log_sys_init_state 262144 false 1 10002048 0).lsn :=
  C1_reachable_lsn_order _
    (LogReachable.init 262144 false 1 10002048 0 (by decide))

/-- C6: if `(flush_to_disk ? flushed_to_disk_lsn : write_lsn) ≥ target`,
then `log_write_up_to(target, flush_to_disk)` returns without changing
any log-system state; consequently two consecutive calls of
`log_write_up_to(L, false)` have the same effect as one call
(idempotence). -/
theorem C6_write_up_to_idempotent :
    (∀ (s : LogSys) (target : Nat) (flush_to_disk : Bool) (method : FlushMethod)
        (write_ahead_size : Nat),
      target ≤ (if flush_to_disk then s.flushed_to_disk_lsn else s.write_lsn) →
      log_write_up_to s target flush_to_disk method write_ahead_size = s) ∧
    (∀ (s : LogSys) (L : Nat) (method method' : FlushMethod)
        (write_ahead_size write_ahead_size' : Nat),
      log_write_up_to (log_write_up_to s L false method write_ahead_size) L false
          method' write_ahead_size' =
        log_write_up_to s L false method write_ahead_size) :=
  ⟨log_write_up_to_noop, log_write_up_to_idem⟩

/-- Witness for C6: on the started demo engine, a write request for an
lsn already covered by `write_lsn` is a no-op. -/
theorem C6_write_up_to_idempotent_witness :
    log_write_up_to initDemo 8192 false FlushMethod.fsync 8192 = initDemo :=
  C6_write_up_to_idempotent.1 initDemo 8192 false FlushMethod.fsync 8192 (by decide)

section

attribute [local irreducible] log_write_up_to log_write_low log_close
  log_write_checkpoint_info

/-- C2: `log_checkpoint(sync, write_always)` returns false exactly when,
at its re-check under the mutex, another checkpoint write is already
pending (`n_pending_checkpoint_writes > 0` — unchanged by the preceding
redo-log write, so stated on the entry state), and in that case it
changes no checkpoint state; in every other case it returns true, and
when `!write_always` and the oldest modification equals
`last_checkpoint_lsn + SIZE_OF_MLOG_CHECKPOINT` it returns true early
with the log state unchanged. -/
theorem C2_checkpoint_contention (s : LogSys) (sync wa : Bool)
    (pool_oldest : Nat) (nameRecs : List Nat) (method : FlushMethod)
    (write_ahead_size : Nat) :
    ((log_checkpoint s sync wa pool_oldest nameRecs method write_ahead_size).1 = false ↔
      ¬(wa = false ∧ (if pool_oldest = 0 then s.lsn else pool_oldest) =
          s.last_checkpoint_lsn + SIZE_OF_MLOG_CHECKPOINT) ∧
      ¬(wa = false ∧ (if pool_oldest = 0 then s.lsn else pool_oldest) ≤
          s.last_checkpoint_lsn) ∧
      0 < s.n_pending_checkpoint_writes) ∧
    ((log_checkpoint s sync wa pool_oldest nameRecs method write_ahead_size).1 = false →
      (log_checkpoint s sync wa pool_oldest nameRecs method write_ahead_size).2.last_checkpoint_lsn = s.last_checkpoint_lsn ∧
      (log_checkpoint s sync wa pool_oldest nameRecs method write_ahead_size).2.next_checkpoint_lsn = s.next_checkpoint_lsn ∧
      (log_checkpoint s sync wa pool_oldest nameRecs method write_ahead_size).2.next_checkpoint_no = s.next_checkpoint_no ∧
      (log_checkpoint s sync wa pool_oldest nameRecs method write_ahead_size).2.n_pending_checkpoint_writes = s.n_pending_checkpoint_writes ∧
      (log_checkpoint s sync wa pool_oldest nameRecs method write_ahead_size).2.cp_disk = s.cp_disk ∧
      (log_checkpoint s sync wa pool_oldest nameRecs method write_ahead_size).2.cp_slot_trace = s.cp_slot_trace) ∧
    ((wa = false ∧ (if pool_oldest = 0 then s.lsn else pool_oldest) =
        s.last_checkpoint_lsn + SIZE_OF_MLOG_CHECKPOINT) →
      log_checkpoint s sync wa pool_oldest nameRecs method write_ahead_size =
        (true, s)) := by
  by_cases hE1 : wa = false ∧ (if pool_oldest = 0 then s.lsn else pool_oldest) =
      s.last_checkpoint_lsn + SIZE_OF_MLOG_CHECKPOINT
  · have hr : log_checkpoint s sync wa pool_oldest nameRecs method write_ahead_size =
        (true, s) := by
      simp only [log_checkpoint, if_pos hE1]
    rw [hr]
    refine ⟨?_, ?_, fun _ => rfl⟩
    · constructor
      · intro hcon; exact absurd hcon (by simp)
      · rintro ⟨hna, -, -⟩; exact absurd hE1 hna
    · intro hcon; exact absurd hcon (by simp)
  · obtain ⟨f1, f2, f3, f4, f5, f6⟩ := log_checkpoint_s1_cp_frame s pool_oldest nameRecs
    have ht := log_checkpoint_tail_spec s
      (if nameRecs.length = 0 then s else (log_close (log_write_low s nameRecs) pool_oldest).2)
      sync wa
      (if pool_oldest = 0 then s.lsn else pool_oldest)
      (if nameRecs.length = 0 then (if pool_oldest = 0 then s.lsn else pool_oldest)
        else (if nameRecs.length = 0 then s else (log_close (log_write_low s nameRecs) pool_oldest).2).lsn)
      method write_ahead_size f1 f2 f3 f4 f5 f6
    have hr : log_checkpoint s sync wa pool_oldest nameRecs method write_ahead_size =
        (if wa = false ∧ (if pool_oldest = 0 then s.lsn else pool_oldest) ≤
            (log_write_up_to
              (if nameRecs.length = 0 then s else (log_close (log_write_low s nameRecs) pool_oldest).2)
              (if nameRecs.length = 0 then (if pool_oldest = 0 then s.lsn else pool_oldest)
                else (if nameRecs.length = 0 then s else (log_close (log_write_low s nameRecs) pool_oldest).2).lsn)
              true method write_ahead_size).last_checkpoint_lsn
          then (true, log_write_up_to
              (if nameRecs.length = 0 then s else (log_close (log_write_low s nameRecs) pool_oldest).2)
              (if nameRecs.length = 0 then (if pool_oldest = 0 then s.lsn else pool_oldest)
                else (if nameRecs.length = 0 then s else (log_close (log_write_low s nameRecs) pool_oldest).2).lsn)
              true method write_ahead_size)
          else if 0 < (log_write_up_to
              (if nameRecs.length = 0 then s else (log_close (log_write_low s nameRecs) pool_oldest).2)
              (if nameRecs.length = 0 then (if pool_oldest = 0 then s.lsn else pool_oldest)
                else (if nameRecs.length = 0 then s else (log_close (log_write_low s nameRecs) pool_oldest).2).lsn)
              true method write_ahead_size).n_pending_checkpoint_writes
            then (false, log_write_up_to
              (if nameRecs.length = 0 then s else (log_close (log_write_low s nameRecs) pool_oldest).2)
              (if nameRecs.length = 0 then (if pool_oldest = 0 then s.lsn else pool_oldest)
                else (if nameRecs.length = 0 then s else (log_close (log_write_low s nameRecs) pool_oldest).2).lsn)
              true method write_ahead_size)
            else (true, log_write_checkpoint_info
              { log_write_up_to
                  (if nameRecs.length = 0 then s else (log_close (log_write_low s nameRecs) pool_oldest).2)
                  (if nameRecs.length = 0 then (if pool_oldest = 0 then s.lsn else pool_oldest)
                    else (if nameRecs.length = 0 then s else (log_close (log_write_low s nameRecs) pool_oldest).2).lsn)
                  true method write_ahead_size with
                next_checkpoint_lsn := (if pool_oldest = 0 then s.lsn else pool_oldest) } sync)) := by
      simp only [log_checkpoint, if_neg hE1]
    rw [hr]
    refine ⟨?_, ht.2, fun hcon => absurd hcon hE1⟩
    constructor
    · intro hf
      obtain ⟨hna2, hp⟩ := ht.1.mp hf
      exact ⟨hE1, hna2, hp⟩
    · rintro ⟨-, hna2, hp⟩
      exact ht.1.mpr ⟨hna2, hp⟩

end

/-- Witness for C2: on the started demo engine with a clean pool reported
at exactly `last_checkpoint_lsn + SIZE_OF_MLOG_CHECKPOINT`, a
non-forced checkpoint returns true early with the state unchanged. -/
theorem C2_checkpoint_contention_witness :
    log_checkpoint initDemo false false 8201 [] FlushMethod.fsync 8192 =
      (true, initDemo) :=
  (C2_checkpoint_contention initDemo false false 8201 [] FlushMethod.fsync
    8192).2.2 ⟨rfl, by decide⟩

/-- C9: `log_group_calc_size_offset` and `log_group_calc_real_offset` are
mutually inverse: for every real offset `r` within the group whose
position inside its file is at least `LOG_FILE_HDR_SIZE` (i.e. `r` does
not fall inside a file header),
`log_group_calc_real_offset(log_group_calc_size_offset(r, g), g) = r`. -/
theorem C9_offset_roundtrip (g : LogGroup) (r : Nat)
    (hH : LOG_FILE_HDR_SIZE ≤ r % g.file_size)
    (hr : r < g.n_files * g.file_size) :
    log_group_calc_real_offset (log_group_calc_size_offset r g) g = r := by
  have hF : 0 < g.file_size := by
    rcases Nat.eq_zero_or_pos g.file_size with h0 | h
    · rw [h0, Nat.mul_zero] at hr; exact absurd hr (Nat.not_lt_zero r)
    · exact h
  have hH2048 : LOG_FILE_HDR_SIZE = 2048 := by norm_num [LOG_FILE_HDR_SIZE, OS_FILE_LOG_BLOCK_SIZE]
  rw [hH2048] at hH
  have hpF : r % g.file_size < g.file_size := Nat.mod_lt _ hF
  have hHF : 2048 < g.file_size := lt_of_le_of_lt hH hpF
  have hrqp : g.file_size * (r / g.file_size) + r % g.file_size = r :=
    Nat.div_add_mod r g.file_size
  have h1 : (g.file_size - 2048) * (r / g.file_size) + 2048 * (r / g.file_size) =
      g.file_size * (r / g.file_size) := by
    rw [← Nat.add_mul, Nat.sub_add_cancel (le_of_lt hHF)]
  have hs : log_group_calc_size_offset r g =
      (g.file_size - 2048) * (r / g.file_size) + (r % g.file_size - 2048) := by
    simp only [log_group_calc_size_offset, hH2048]
    omega
  have hpos : 0 < g.file_size - 2048 := by omega
  have hdiv : ((g.file_size - 2048) * (r / g.file_size) + (r % g.file_size - 2048)) /
      (g.file_size - 2048) = r / g.file_size := by
    rw [Nat.mul_add_div hpos,
      Nat.div_eq_of_lt (show r % g.file_size - 2048 < g.file_size - 2048 by omega),
      Nat.add_zero]
  rw [hs]
  simp only [log_group_calc_real_offset, hH2048]
  rw [hdiv]
  omega

/-- Witness for C9: a two-file group of 4096-byte files, at the first
data byte of the first file. -/
theorem C9_offset_roundtrip_witness :
    log_group_calc_real_offset
      (log_group_calc_size_offset 2048 (logGroupInit 2 4096)) (logGroupInit 2 4096) = 2048 :=
  C9_offset_roundtrip (logGroupInit 2 4096) 2048 (by decide) (by decide)

/-- C3 (amended): at log-group init, with `C` the smallest group capacity
reduced by a tenth (`C′ = C − C/10`) and
`reserve = per-thread reserve · (threads + 10) + extra reserve`,
`log_calc_max_ages` fails exactly when `C′/2 ≤ reserve`; otherwise, with
`m = C′ − reserve` and `M = m − m/10` (all divisions integer), it sets
`max_checkpoint_age = M`, `max_checkpoint_age_async = M − M/32`,
`max_modified_age_sync = M − M/16`, `max_modified_age_async = M − M/8`,
and `log_group_capacity = C′`. -/
theorem C3_max_ages_amended (groups : List LogGroup) (t : Nat) :
    (log_calc_max_ages groups t = none ↔
      (groups.foldl (fun m g => min m (log_group_get_capacity g)) LSN_MAX - groups.foldl (fun m g => min m (log_group_get_capacity g)) LSN_MAX / 10) / 2 ≤ (LOG_CHECKPOINT_FREE_PER_THREAD * (10 + t) + LOG_CHECKPOINT_EXTRA_FREE)) ∧
    ∀ A, log_calc_max_ages groups t = some A →
      A.log_group_capacity = (groups.foldl (fun m g => min m (log_group_get_capacity g)) LSN_MAX - groups.foldl (fun m g => min m (log_group_get_capacity g)) LSN_MAX / 10) ∧
      A.max_checkpoint_age = (((groups.foldl (fun m g => min m (log_group_get_capacity g)) LSN_MAX - groups.foldl (fun m g => min m (log_group_get_capacity g)) LSN_MAX / 10) - (LOG_CHECKPOINT_FREE_PER_THREAD * (10 + t) + LOG_CHECKPOINT_EXTRA_FREE)) - ((groups.foldl (fun m g => min m (log_group_get_capacity g)) LSN_MAX - groups.foldl (fun m g => min m (log_group_get_capacity g)) LSN_MAX / 10) - (LOG_CHECKPOINT_FREE_PER_THREAD * (10 + t) + LOG_CHECKPOINT_EXTRA_FREE)) / 10) ∧
      A.max_checkpoint_age_async = (((groups.foldl (fun m g => min m (log_group_get_capacity g)) LSN_MAX - groups.foldl (fun m g => min m (log_group_get_capacity g)) LSN_MAX / 10) - (LOG_CHECKPOINT_FREE_PER_THREAD * (10 + t) + LOG_CHECKPOINT_EXTRA_FREE)) - ((groups.foldl (fun m g => min m (log_group_get_capacity g)) LSN_MAX - groups.foldl (fun m g => min m (log_group_get_capacity g)) LSN_MAX / 10) - (LOG_CHECKPOINT_FREE_PER_THREAD * (10 + t) + LOG_CHECKPOINT_EXTRA_FREE)) / 10) - (((groups.foldl (fun m g => min m (log_group_get_capacity g)) LSN_MAX - groups.foldl (fun m g => min m (log_group_get_capacity g)) LSN_MAX / 10) - (LOG_CHECKPOINT_FREE_PER_THREAD * (10 + t) + LOG_CHECKPOINT_EXTRA_FREE)) - ((groups.foldl (fun m g => min m (log_group_get_capacity g)) LSN_MAX - groups.foldl (fun m g => min m (log_group_get_capacity g)) LSN_MAX / 10) - (LOG_CHECKPOINT_FREE_PER_THREAD * (10 + t) + LOG_CHECKPOINT_EXTRA_FREE)) / 10) / 32 ∧
      A.max_modified_age_sync = (((groups.foldl (fun m g => min m (log_group_get_capacity g)) LSN_MAX - groups.foldl (fun m g => min m (log_group_get_capacity g)) LSN_MAX / 10) - (LOG_CHECKPOINT_FREE_PER_THREAD * (10 + t) + LOG_CHECKPOINT_EXTRA_FREE)) - ((groups.foldl (fun m g => min m (log_group_get_capacity g)) LSN_MAX - groups.foldl (fun m g => min m (log_group_get_capacity g)) LSN_MAX / 10) - (LOG_CHECKPOINT_FREE_PER_THREAD * (10 + t) + LOG_CHECKPOINT_EXTRA_FREE)) / 10) - (((groups.foldl (fun m g => min m (log_group_get_capacity g)) LSN_MAX - groups.foldl (fun m g => min m (log_group_get_capacity g)) LSN_MAX / 10) - (LOG_CHECKPOINT_FREE_PER_THREAD * (10 + t) + LOG_CHECKPOINT_EXTRA_FREE)) - ((groups.foldl (fun m g => min m (log_group_get_capacity g)) LSN_MAX - groups.foldl (fun m g => min m (log_group_get_capacity g)) LSN_MAX / 10) - (LOG_CHECKPOINT_FREE_PER_THREAD * (10 + t) + LOG_CHECKPOINT_EXTRA_FREE)) / 10) / 16 ∧
      A.max_modified_age_async = (((groups.foldl (fun m g => min m (log_group_get_capacity g)) LSN_MAX - groups.foldl (fun m g => min m (log_group_get_capacity g)) LSN_MAX / 10) - (LOG_CHECKPOINT_FREE_PER_THREAD * (10 + t) + LOG_CHECKPOINT_EXTRA_FREE)) - ((groups.foldl (fun m g => min m (log_group_get_capacity g)) LSN_MAX - groups.foldl (fun m g => min m (log_group_get_capacity g)) LSN_MAX / 10) - (LOG_CHECKPOINT_FREE_PER_THREAD * (10 + t) + LOG_CHECKPOINT_EXTRA_FREE)) / 10) - (((groups.foldl (fun m g => min m (log_group_get_capacity g)) LSN_MAX - groups.foldl (fun m g => min m (log_group_get_capacity g)) LSN_MAX / 10) - (LOG_CHECKPOINT_FREE_PER_THREAD * (10 + t) + LOG_CHECKPOINT_EXTRA_FREE)) - ((groups.foldl (fun m g => min m (log_group_get_capacity g)) LSN_MAX - groups.foldl (fun m g => min m (log_group_get_capacity g)) LSN_MAX / 10) - (LOG_CHECKPOINT_FREE_PER_THREAD * (10 + t) + LOG_CHECKPOINT_EXTRA_FREE)) / 10) / 8 := by
  simp only [log_calc_max_ages]
  split_ifs with hc
  · refine ⟨by simp [hc], ?_⟩
    intro A hA
    exact absurd hA (by simp)
  · refine ⟨by simp [hc], ?_⟩
    intro A hA
    rw [Option.some.injEq] at hA
    subst hA
    exact ⟨rfl, rfl, rfl, rfl, rfl⟩

/-- Witness for C3 (amended): a single 1662048-byte log file leaves less
than twice the thread reserve after the safety tenth, so init fails. -/
theorem C3_max_ages_amended_witness :
    log_calc_max_ages [logGroupInit 1 1662048] 0 = none :=
  ((C3_max_ages_amended [logGroupInit 1 1662048] 0).1).mpr (by decide)

/-- Counterexample for C3 as stated: for one group of capacity 10^7 and
no threads, the code computes `max_checkpoint_age = 7392212`, while the
spec's formula `M = (C − reserve) · 0.9` gives `8292211`; and for one
group of capacity 1660000 the code fails init although the spec's
`reserve ≥ C/2` test passes. -/
theorem C3_max_ages_counterexample :
    (log_calc_max_ages [logGroupInit 1 10002048] 0).map LogMaxAges.max_checkpoint_age =
      some 7392212 ∧
    (log_calc_max_ages_spec (log_group_get_capacity (logGroupInit 1 10002048))
        (LOG_CHECKPOINT_FREE_PER_THREAD * (10 + 0) + LOG_CHECKPOINT_EXTRA_FREE)).map
        (fun x => x.1) = some 8292211 ∧
    (7392212 : Nat) ≠ 8292211 ∧
    log_calc_max_ages [logGroupInit 1 1662048] 0 = none ∧
    (log_calc_max_ages_spec (log_group_get_capacity (logGroupInit 1 1662048))
        (LOG_CHECKPOINT_FREE_PER_THREAD * (10 + 0) + LOG_CHECKPOINT_EXTRA_FREE)).isSome =
      true := by
  exact ⟨by decide, by decide, by decide, by decide, by decide⟩

/-- C5: `log_group_checkpoint` writes the checkpoint block to slot
`LOG_CHECKPOINT_2` when `next_checkpoint_no` is odd and to slot
`LOG_CHECKPOINT_1` when it is even, and `log_complete_checkpoint`
increments `next_checkpoint_no` by one per completed checkpoint, so five
successive checkpoints starting from a fresh init use the slots in the
order CP1, CP2, CP1, CP2, CP1. -/
theorem C5_checkpoint_slot_alternation :
    (∀ s : LogSys, (log_group_checkpoint s).cp_slot_trace =
      s.cp_slot_trace ++
        [if s.next_checkpoint_no % 2 = 1 then LOG_CHECKPOINT_2 else LOG_CHECKPOINT_1]) ∧
    (∀ s : LogSys,
      (log_complete_checkpoint s).next_checkpoint_no = s.next_checkpoint_no + 1) ∧
    c5_run.cp_slot_trace =
      [LOG_CHECKPOINT_1, LOG_CHECKPOINT_2, LOG_CHECKPOINT_1, LOG_CHECKPOINT_2,
        LOG_CHECKPOINT_1] :=
  ⟨fun _ => rfl, fun _ => rfl, by decide⟩

/-- C7: after a write completes, `log_sys_write_completion` sets
`write_lsn = lsn` and `buf_next_to_write = write_end_offset`, and if
`write_end_offset` exceeds `max_buf_free / 2` it moves the bytes from
`align_down(write_end_offset, block_size)` up to
`align_up(buf_free, block_size)` to offset 0 of the buffer and decreases
both `buf_free` and `buf_next_to_write` by
`align_down(write_end_offset, block_size)`, preserving the unwritten
buffer content. -/
theorem C7_write_completion_effect (s : LogSys) :
    (log_sys_write_completion s).write_lsn = s.lsn ∧
    (s.max_buf_free / 2 < s.write_end_offset →
      (log_sys_write_completion s).buf_free =
        s.buf_free - ut_calc_align_down s.write_end_offset OS_FILE_LOG_BLOCK_SIZE ∧
      (log_sys_write_completion s).buf_next_to_write =
        s.write_end_offset - ut_calc_align_down s.write_end_offset OS_FILE_LOG_BLOCK_SIZE ∧
      (∀ o, o < ut_calc_align s.buf_free OS_FILE_LOG_BLOCK_SIZE -
          ut_calc_align_down s.write_end_offset OS_FILE_LOG_BLOCK_SIZE →
        (log_sys_write_completion s).data o =
          s.data (o + ut_calc_align_down s.write_end_offset OS_FILE_LOG_BLOCK_SIZE)) ∧
      (∀ i, i < (ut_calc_align s.buf_free OS_FILE_LOG_BLOCK_SIZE -
          ut_calc_align_down s.write_end_offset OS_FILE_LOG_BLOCK_SIZE) /
            OS_FILE_LOG_BLOCK_SIZE →
        (log_sys_write_completion s).blocks i =
          s.blocks (i + ut_calc_align_down s.write_end_offset OS_FILE_LOG_BLOCK_SIZE /
            OS_FILE_LOG_BLOCK_SIZE))) ∧
    (¬ s.max_buf_free / 2 < s.write_end_offset →
      (log_sys_write_completion s).buf_free = s.buf_free ∧
      (log_sys_write_completion s).buf_next_to_write = s.write_end_offset ∧
      (log_sys_write_completion s).data = s.data ∧
      (log_sys_write_completion s).blocks = s.blocks) := by
  simp only [log_sys_write_completion, moveDown, moveBlocksDown]
  split_ifs with hc
  · exact ⟨rfl, fun _ =>
      ⟨rfl, rfl, fun o ho => by simp [moveDown, ho], fun i hi => by simp [moveBlocksDown, hi]⟩,
      fun hn => absurd hc hn⟩
  · exact ⟨rfl, fun hyes => absurd hyes hc, fun _ => ⟨rfl, rfl, rfl, rfl⟩⟩

/-- Witness for C7 at a state whose written prefix of 1000 bytes exceeds
half of `max_buf_free = 10`: the cursors are rebased by the aligned-down
write end offset. -/
theorem C7_write_completion_effect_witness :
    (log_sys_write_completion c7_state).buf_free =
      c7_state.buf_free -
        ut_calc_align_down c7_state.write_end_offset OS_FILE_LOG_BLOCK_SIZE ∧
    (log_sys_write_completion c7_state).buf_next_to_write =
      c7_state.write_end_offset -
        ut_calc_align_down c7_state.write_end_offset OS_FILE_LOG_BLOCK_SIZE :=
  ⟨((C7_write_completion_effect c7_state).2.1 (by decide)).1,
   ((C7_write_completion_effect c7_state).2.1 (by decide)).2.1⟩

theorem log_write_low_go_lsn (fuel : Nat) :
    ∀ (log : LogSys) (str : List Nat),
      LOG_BLOCK_HDR_SIZE ≤ log.buf_free % OS_FILE_LOG_BLOCK_SIZE →
      log.buf_free % OS_FILE_LOG_BLOCK_SIZE ≤
        OS_FILE_LOG_BLOCK_SIZE - LOG_BLOCK_TRL_SIZE - 1 →
      2 * str.length < fuel →
      (log_write_low_go fuel log str).lsn =
        log.lsn + str.length +
          (LOG_BLOCK_HDR_SIZE + LOG_BLOCK_TRL_SIZE) *
            ((log.buf_free % OS_FILE_LOG_BLOCK_SIZE + str.length - LOG_BLOCK_HDR_SIZE) /
              (OS_FILE_LOG_BLOCK_SIZE - LOG_BLOCK_HDR_SIZE - LOG_BLOCK_TRL_SIZE)) := by
  induction fuel with
  | zero =>
    intro log str h1 h2 h3
    exact absurd h3 (by omega)
  | succ n ih =>
    intro log str h1 h2 h3
    simp only [OS_FILE_LOG_BLOCK_SIZE, LOG_BLOCK_HDR_SIZE, LOG_BLOCK_TRL_SIZE]
      at h1 h2 ⊢
    by_cases hrest : (lwl_rest log str).length = 0
    · simp only [log_write_low_go, if_pos hrest]
      have hr2 := hrest
      simp only [lwl_rest, lwl_len, OS_FILE_LOG_BLOCK_SIZE, LOG_BLOCK_TRL_SIZE,
        List.length_drop] at hr2
      simp only [log_write_low_iter, lwl_len, OS_FILE_LOG_BLOCK_SIZE,
        LOG_BLOCK_TRL_SIZE, LOG_BLOCK_HDR_SIZE]
      split_ifs at hr2 ⊢ <;> dsimp only <;> omega
    · simp only [log_write_low_go, if_neg hrest]
      have hr2 := hrest
      simp only [lwl_rest, lwl_len, OS_FILE_LOG_BLOCK_SIZE, LOG_BLOCK_TRL_SIZE,
        List.length_drop] at hr2
      have hfits : ¬ (log.buf_free % 512 + str.length ≤ 508) := by
        intro hf
        apply hr2
        rw [if_pos hf]
        omega
      have hlsn : (log_write_low_iter log str).lsn =
          log.lsn + (508 - log.buf_free % 512 + 16) := by
        simp only [log_write_low_iter, lwl_len, OS_FILE_LOG_BLOCK_SIZE,
          LOG_BLOCK_TRL_SIZE, LOG_BLOCK_HDR_SIZE]
        split_ifs <;> dsimp only <;> omega
      have hbf : (log_write_low_iter log str).buf_free =
          log.buf_free + (508 - log.buf_free % 512 + 16) := by
        simp only [log_write_low_iter, lwl_len, OS_FILE_LOG_BLOCK_SIZE,
          LOG_BLOCK_TRL_SIZE, LOG_BLOCK_HDR_SIZE]
        split_ifs <;> dsimp only <;> omega
      have hlen : (lwl_rest log str).length =
          str.length - (508 - log.buf_free % 512) := by
        simp only [lwl_rest, lwl_len, OS_FILE_LOG_BLOCK_SIZE, LOG_BLOCK_TRL_SIZE,
          List.length_drop]
        split_ifs <;> omega
      have pre1 : LOG_BLOCK_HDR_SIZE ≤
          (log_write_low_iter log str).buf_free % OS_FILE_LOG_BLOCK_SIZE := by
        simp only [OS_FILE_LOG_BLOCK_SIZE, LOG_BLOCK_HDR_SIZE]
        rw [hbf]
        omega
      have pre2 : (log_write_low_iter log str).buf_free % OS_FILE_LOG_BLOCK_SIZE ≤
          OS_FILE_LOG_BLOCK_SIZE - LOG_BLOCK_TRL_SIZE - 1 := by
        simp only [OS_FILE_LOG_BLOCK_SIZE, LOG_BLOCK_TRL_SIZE]
        rw [hbf]
        omega
      have pre3 : 2 * (lwl_rest log str).length < n := by
        rw [hlen]
        omega
      have he := ih (log_write_low_iter log str) (lwl_rest log str) pre1 pre2 pre3
      simp only [OS_FILE_LOG_BLOCK_SIZE, LOG_BLOCK_HDR_SIZE, LOG_BLOCK_TRL_SIZE]
        at he
      rw [he, hlsn, hbf, hlen]
      omega

set_option maxRecDepth 100000 in
/-- C4: `log_write_low` appending N bytes advances `lsn` by exactly
`N + k * (LOG_BLOCK_HDR_SIZE + LOG_BLOCK_TRL_SIZE)`, where `k` is the
number of block boundaries crossed (the number of payload areas filled:
`(offset_in_block + N − header) / payload_capacity`); in particular,
starting from a freshly initialized log (block size 512, header 12,
trailer 4), appending 100 bytes and closing advances `lsn` by 100, leaves
the block's `data_len` equal to 112, and leaves its first-rec-group
offset equal to 12. -/
theorem C4_write_low_lsn_advance :
    (∀ (log : LogSys) (str : List Nat),
      LOG_BLOCK_HDR_SIZE ≤ log.buf_free % OS_FILE_LOG_BLOCK_SIZE →
      log.buf_free % OS_FILE_LOG_BLOCK_SIZE ≤
        OS_FILE_LOG_BLOCK_SIZE - LOG_BLOCK_TRL_SIZE - 1 →
      (log_write_low log str).lsn =
        log.lsn + str.length +
          (LOG_BLOCK_HDR_SIZE + LOG_BLOCK_TRL_SIZE) *
            ((log.buf_free % OS_FILE_LOG_BLOCK_SIZE + str.length - LOG_BLOCK_HDR_SIZE) /
              (OS_FILE_LOG_BLOCK_SIZE - LOG_BLOCK_HDR_SIZE - LOG_BLOCK_TRL_SIZE))) ∧
    c4_run.lsn = initDemo.lsn + 100 ∧
    (c4_run.blocks 0).data_len = 112 ∧
    (c4_run.blocks 0).first_rec_group = LOG_BLOCK_HDR_SIZE :=
  ⟨fun log str hh ht => log_write_low_go_lsn _ log str hh ht (by omega),
   by decide, by decide, by decide⟩

set_option maxRecDepth 100000 in
/-- Witness for C4's general advance formula, at the fresh demo engine
appending 100 bytes (no boundary crossed). -/
theorem C4_write_low_lsn_advance_witness :
    (log_write_low initDemo (List.replicate 100 65)).lsn =
      initDemo.lsn + (List.replicate 100 65).length +
        (LOG_BLOCK_HDR_SIZE + LOG_BLOCK_TRL_SIZE) *
          ((initDemo.buf_free % OS_FILE_LOG_BLOCK_SIZE + (List.replicate 100 65).length -
              LOG_BLOCK_HDR_SIZE) /
            (OS_FILE_LOG_BLOCK_SIZE - LOG_BLOCK_HDR_SIZE - LOG_BLOCK_TRL_SIZE)) :=
  C4_write_low_lsn_advance.1 initDemo (List.replicate 100 65) (by decide) (by decide)

set_option maxRecDepth 100000 in
/-- Counterexample for C8 as stated: with the cursor `H + 480 = 492`
bytes into its block, appending 100 bytes and closing sets the new
block's first-rec-group to 96, not 80 (only 16 bytes fit before the
4-byte trailer of the 512-byte block, not 32, so 84 bytes spill over,
not 68). -/
theorem C8_crossing_counterexample :
    c8_start.buf_free % OS_FILE_LOG_BLOCK_SIZE = LOG_BLOCK_HDR_SIZE + 480 ∧
    (c8_run.blocks 1).first_rec_group = 96 ∧ (96 : Nat) ≠ 80 := by
  exact ⟨by decide, by decide, by decide⟩

set_option maxRecDepth 100000 in
/-- C8 (amended): with block size 512, header 12 and trailer 4, if
`buf_free` points `H + 480` bytes into its block and 100 bytes are
appended via `log_write_low`, then the first 16 bytes go into the current
block (filling its payload up to the trailer; the block is stamped full
at `data_len = 512`), the remaining 84 bytes go into the newly
initialized next block (`data_len = 12 + 84 = 96`) whose
`first_rec_group` is set to 96 at close, and `lsn` advances by 100 plus
one header+trailer (116) for the crossed boundary. -/
theorem C8_crossing_amended :
    c8_start.buf_free % OS_FILE_LOG_BLOCK_SIZE = LOG_BLOCK_HDR_SIZE + 480 ∧
    (log_write_low c8_start (List.replicate 100 65)).data 492 = 65 ∧
    (log_write_low c8_start (List.replicate 100 65)).data 507 = 65 ∧
    (log_write_low c8_start (List.replicate 100 65)).data 508 = 0 ∧
    (log_write_low c8_start (List.replicate 100 65)).data 524 = 65 ∧
    (log_write_low c8_start (List.replicate 100 65)).data 607 = 65 ∧
    (log_write_low c8_start (List.replicate 100 65)).data 608 = 0 ∧
    ((log_write_low c8_start (List.replicate 100 65)).blocks 0).data_len =
      OS_FILE_LOG_BLOCK_SIZE ∧
    ((log_write_low c8_start (List.replicate 100 65)).blocks 1).data_len =
      LOG_BLOCK_HDR_SIZE + 84 ∧
    (c8_run.blocks 1).first_rec_group = 96 ∧
    c8_run.lsn = c8_start.lsn + 116 := by
  exact ⟨by decide, by decide, by decide, by decide, by decide, by decide,
    by decide, by decide, by decide, by decide, by decide⟩

theorem log_close_check_iff (s : LogSys) (pool_oldest : Nat) :
    ((log_close s pool_oldest).2.check_flush_or_checkpoint = true ↔
      s.check_flush_or_checkpoint = true ∨ s.max_buf_free < s.buf_free ∨
      (s.max_modified_age_sync < s.lsn - s.last_checkpoint_lsn ∧
        (pool_oldest = 0 ∨ s.max_modified_age_sync < s.lsn - pool_oldest ∨
          s.max_checkpoint_age_async < s.lsn - s.last_checkpoint_lsn))) := by
  simp only [log_close, apply_ite Prod.snd,
    apply_ite LogSys.check_flush_or_checkpoint, apply_ite LogSys.max_buf_free,
    apply_ite LogSys.buf_free, apply_ite LogSys.track_changed_pages,
    apply_ite LogSys.log_group_capacity, apply_ite LogSys.tracked_lsn,
    apply_ite LogSys.last_checkpoint_lsn, apply_ite LogSys.max_modified_age_sync,
    apply_ite LogSys.max_checkpoint_age_async, ite_self]
  split_ifs <;> simp_all <;> omega

theorem log_close_track_iff (s : LogSys) (pool_oldest : Nat) :
    ((log_close s pool_oldest).2.track_changed_pages = true ↔
      s.track_changed_pages = true ∧
        ¬ s.log_group_capacity ≤ s.lsn - s.tracked_lsn) := by
  simp only [log_close, apply_ite Prod.snd,
    apply_ite LogSys.track_changed_pages, apply_ite LogSys.max_buf_free,
    apply_ite LogSys.buf_free, apply_ite LogSys.log_group_capacity,
    apply_ite LogSys.tracked_lsn, apply_ite LogSys.last_checkpoint_lsn,
    apply_ite LogSys.max_modified_age_sync,
    apply_ite LogSys.max_checkpoint_age_async, ite_self]
  split_ifs <;> simp_all

theorem log_close_warn_iff (s : LogSys) (pool_oldest : Nat) :
    ((log_close s pool_oldest).2.has_printed_chkp_warning = true ↔
      s.has_printed_chkp_warning = true ∨
        s.log_group_capacity ≤ s.lsn - s.last_checkpoint_lsn) := by
  simp only [log_close, apply_ite Prod.snd,
    apply_ite LogSys.has_printed_chkp_warning, apply_ite LogSys.max_buf_free,
    apply_ite LogSys.buf_free, apply_ite LogSys.track_changed_pages,
    apply_ite LogSys.log_group_capacity, apply_ite LogSys.tracked_lsn,
    apply_ite LogSys.last_checkpoint_lsn, apply_ite LogSys.max_modified_age_sync,
    apply_ite LogSys.max_checkpoint_age_async, ite_self]
  split_ifs <;> simp_all

/-- C10: `log_close` returns the current `lsn` and modifies neither
`lsn`, `buf_free`, nor `buf_next_to_write`; its only state changes are
setting the current block's first-rec-group to its `data_len` when that
field was 0, setting the `check_flush_or_checkpoint` flag under the
documented margin conditions, possibly disabling page tracking, and
updating the warning bookkeeping. -/
theorem C10_log_close_frame_effect (s : LogSys) (pool_oldest : Nat) :
    (log_close s pool_oldest).1 = s.lsn ∧
    (log_close s pool_oldest).2.lsn = s.lsn ∧
    (log_close s pool_oldest).2.buf_free = s.buf_free ∧
    (log_close s pool_oldest).2.buf_next_to_write = s.buf_next_to_write ∧
    (log_close s pool_oldest).2.write_lsn = s.write_lsn ∧
    (log_close s pool_oldest).2.flushed_to_disk_lsn = s.flushed_to_disk_lsn ∧
    (log_close s pool_oldest).2.current_flush_lsn = s.current_flush_lsn ∧
    (log_close s pool_oldest).2.write_end_offset = s.write_end_offset ∧
    (log_close s pool_oldest).2.n_pending_flushes = s.n_pending_flushes ∧
    (log_close s pool_oldest).2.flush_event_set = s.flush_event_set ∧
    (log_close s pool_oldest).2.last_checkpoint_lsn = s.last_checkpoint_lsn ∧
    (log_close s pool_oldest).2.next_checkpoint_lsn = s.next_checkpoint_lsn ∧
    (log_close s pool_oldest).2.next_checkpoint_no = s.next_checkpoint_no ∧
    (log_close s pool_oldest).2.n_pending_checkpoint_writes = s.n_pending_checkpoint_writes ∧
    (log_close s pool_oldest).2.buf_size = s.buf_size ∧
    (log_close s pool_oldest).2.max_buf_free = s.max_buf_free ∧
    (log_close s pool_oldest).2.data = s.data ∧
    (log_close s pool_oldest).2.log_group_capacity = s.log_group_capacity ∧
    (log_close s pool_oldest).2.max_modified_age_async = s.max_modified_age_async ∧
    (log_close s pool_oldest).2.max_modified_age_sync = s.max_modified_age_sync ∧
    (log_close s pool_oldest).2.max_checkpoint_age_async = s.max_checkpoint_age_async ∧
    (log_close s pool_oldest).2.max_checkpoint_age = s.max_checkpoint_age ∧
    (log_close s pool_oldest).2.tracked_lsn = s.tracked_lsn ∧
    (log_close s pool_oldest).2.group = s.group ∧
    (log_close s pool_oldest).2.cp_disk = s.cp_disk ∧
    (log_close s pool_oldest).2.cp_slot_trace = s.cp_slot_trace ∧
    (∀ i, (log_close s pool_oldest).2.blocks i =
      if i = s.buf_free / OS_FILE_LOG_BLOCK_SIZE ∧
          (s.blocks (s.buf_free / OS_FILE_LOG_BLOCK_SIZE)).first_rec_group = 0
      then { s.blocks i with first_rec_group := (s.blocks i).data_len }
      else s.blocks i) ∧
    ((log_close s pool_oldest).2.check_flush_or_checkpoint = true ↔
      s.check_flush_or_checkpoint = true ∨ s.max_buf_free < s.buf_free ∨
      (s.max_modified_age_sync < s.lsn - s.last_checkpoint_lsn ∧
        (pool_oldest = 0 ∨ s.max_modified_age_sync < s.lsn - pool_oldest ∨
          s.max_checkpoint_age_async < s.lsn - s.last_checkpoint_lsn))) ∧
    ((log_close s pool_oldest).2.track_changed_pages = true ↔
      s.track_changed_pages = true ∧
        ¬ s.log_group_capacity ≤ s.lsn - s.tracked_lsn) ∧
    ((log_close s pool_oldest).2.has_printed_chkp_warning = true ↔
      s.has_printed_chkp_warning = true ∨
        s.log_group_capacity ≤ s.lsn - s.last_checkpoint_lsn) := by
  obtain ⟨e1, e2, e3, e4, e5, e6, e7, e8, e9, e10, e11, e12, e13, e14, e15, e16,
    e17, e18, e19, e20, e21, e22, e23, e24, e25, e26⟩ := log_close_frame s pool_oldest
  exact ⟨e1, e2, e6, e7, e8, e10, e11, e9, e12, e13, e14, e15, e16, e17, e3, e4,
    e5, e18, e19, e20, e21, e22, e23, e24, e25, e26,
    log_close_blocks s pool_oldest, log_close_check_iff s pool_oldest,
    log_close_track_iff s pool_oldest, log_close_warn_iff s pool_oldest⟩
